import Mathlib

/-!
# HealthEventGateway: `src/shared/services/healthService.js`

A shallow embedding of the `healthService` object and of the parts of the
JavaScript runtime it relies on (object literals with spread, truthiness,
strict equality, template-literal string conversion, `URLSearchParams`).

* Values are JSON-like data: `undefined`, `null`, booleans, numbers, strings,
  plain records (prototype `Object.prototype`) and arrays.  A number is held as
  the string `String(x)` yields for it, which fixes everything the service
  observes of a number: its truthiness, `===` and its string conversion.
  Strings are sequences of Unicode scalar values.
* Every record and array that is a value carries the identity of the object
  (`ref`); `===` on two of them compares identities.
* The own properties of a record form an association list; only property
  lookup is observable, so the enumeration order of integer-like keys is not
  modelled.  The names the service reads are not inherited ones.
* String conversion can throw: the conversion of a record that has an own
  property `toString` (never callable, as data) raises a `TypeError`.
* The module-level array `MOCK_HEALTH_EVENTS`, the console and the list of
  requests handed to `apiClient` form the explicit state `World`.
* `apiClient` and the flag `USE_MOCK_API` are the environment `Env`; the
  transport answers a request with a response or raises an error.
* What the service builds itself (the new event, result arrays, the statistics
  literals) is returned as such, without an identity of its own; the
  `setTimeout` delays of the mock branches take time only and are not
  modelled.
-/

namespace HealthService

/-! ## Values -/

/-- JSON-like JavaScript values. A number is given by its rendering
`String(x)` (`"0"` for both zeros, `"NaN"`, `"1e+21"`, ...); records and arrays
carry the identity `ref` of the object. -/
inductive JsVal where
  | undefined
  | null
  | bool (b : Bool)
  | num (rendering : String)
  | str (s : String)
  | obj (ref : Nat) (props : List (String × JsVal))
  | arr (ref : Nat) (items : List JsVal)

/-- The own enumerable data properties of a record. -/
abbrev JsObj := List (String × JsVal)

namespace JsVal

mutual
/-- String conversion as performed by a template literal and by
`URLSearchParams.append`; `none` stands for the `TypeError` it throws. A
record converts through `Object.prototype.toString` unless an own property
`toString` shadows it, in which case no method yields a primitive. Arrays
convert through `join(",")`. -/
def toStr : JsVal → Option String
  | undefined => some "undefined"
  | null => some "null"
  | bool true => some "true"
  | bool false => some "false"
  | num rendering => some rendering
  | str s => some s
  | obj _ props =>
    if props.any (fun p => p.1 == "toString") then none else some "[object Object]"
  | arr _ items => joinItems items
termination_by structural v => v
/-- The body of `Array.prototype.join` with separator `","`: `undefined` and
`null` elements contribute the empty string, the others their string
conversion. -/
def joinItems : List JsVal → Option String
  | [] => some ""
  | x :: rest =>
    match (match x with
      | undefined => some ""
      | null => some ""
      | v => toStr v), joinItems rest with
    | some first, some others =>
      some (first ++ (match rest with | [] => "" | _ => ",") ++ others)
    | _, _ => none
termination_by structural l => l
end

/-- The condition of `if (v)`: `undefined`, `null`, `false`, the zeros, `NaN`
and `""` are falsy, everything else is truthy. -/
def truthy : JsVal → Bool
  | undefined => false
  | null => false
  | bool b => b
  | num rendering => rendering != "0" && rendering != "NaN"
  | str s => s != ""
  | obj _ _ => true
  | arr _ _ => true

/-- The operator `===`. Primitives compare by type and value (`NaN` equals
nothing); records and arrays compare by identity. -/
def strictEq : JsVal → JsVal → Bool
  | undefined, undefined => true
  | null, null => true
  | bool a, bool b => a == b
  | num a, num b => a == b && a != "NaN"
  | str a, str b => a == b
  | obj r _, obj r' _ => r == r'
  | arr r _, arr r' _ => r == r'
  | _, _ => false

end JsVal

namespace Obj

/-- Property read `o[k]` (`o.k`): the value, or `undefined` when `o` has no
such property. -/
def get (o : JsObj) (k : String) : JsVal :=
  (o.lookup k).getD JsVal.undefined

/-- Whether `o` has the own property `k`. -/
def has (o : JsObj) (k : String) : Bool :=
  (o.lookup k).isSome

/-- Defining the property `k` with value `v`: an existing property keeps its
place and takes the new value, a new one is added at the end. -/
def set : JsObj → String → JsVal → JsObj
  | [], k, v => [(k, v)]
  | (k', v') :: rest, k, v =>
    if k' = k then (k, v) :: rest else (k', v') :: set rest k v

/-- The own property keys of `o`, each once. -/
def ownKeys (o : JsObj) : List String :=
  (o.map Prod.fst).dedup

/-- The spread `...src` inside an object literal whose properties so far are
`target`: every own property of `src` is read and defined on the target. -/
def spread (target src : JsObj) : JsObj :=
  (ownKeys src).foldl (fun acc k => set acc k (get src k)) target

end Obj

/-! ## Environment and state -/

/-- HTTP methods used by the gateway. -/
inductive Method where
  | GET
  | POST
  deriving DecidableEq, Repr

/-- A call of `apiClient.get(url)` or `apiClient.post(url, body)`; the body is
the record passed along. -/
structure Request where
  method : Method
  url : String
  body : Option JsObj

/-- The response object the transport resolves to. -/
structure Response where
  data : JsVal

/-- What an operation rejects with: the error the transport raised, or a
`TypeError` raised by the runtime while the operation was evaluated. -/
inductive Thrown (ε : Type) where
  | transport (error : ε)
  | typeError

/-- What an operation resolves to: the data of a response, or something the
service built: the new event, a new array of store records, or a statistics
literal (a new record of new records). -/
inductive Returned where
  | data (v : JsVal)
  | event (record : JsObj)
  | events (records : List JsObj)
  | stats (literal : List (String × JsObj))

/-- Console methods used by the source. -/
inductive Level where
  | log
  | warn
  | error
  deriving DecidableEq, Repr

/-- One console call: its method, its message and the error passed along. -/
structure LogEntry (ε : Type) where
  level : Level
  message : String
  payload : Option (Thrown ε)

/-- What the module is loaded with: the flag and the HTTP client. The client
either resolves to a response or rejects with an error of type `ε`. -/
structure Env (ε : Type) where
  USE_MOCK_API : Bool
  apiClient : Request → Except ε Response

/-- Mutable state: the array `MOCK_HEALTH_EVENTS`, the console output and the
requests issued so far. -/
structure World (ε : Type) where
  store : List JsObj
  console : List (LogEntry ε)
  sent : List Request

/-- Outcome of an asynchronous operation: what the promise resolves to or
rejects with, and the state afterwards. -/
abbrev Outcome (ε : Type) := Except (Thrown ε) Returned × World ε

/-- The argument of `getEventsByFarm`: left out (`undefined`), `null`, or a
record. Any other argument (a primitive or an array) has none of the
properties the service reads and behaves as the record `{}`. -/
inductive FilterArg where
  | omitted
  | null
  | record (props : JsObj)

/-- The record whose properties the body reads: the default `{}` for a
left-out argument; `none` for `null`, of which no property can be read. -/
def FilterArg.props? : FilterArg → Option JsObj
  | omitted => some []
  | null => none
  | record props => some props

/-- The initial content of `MOCK_HEALTH_EVENTS`. -/
def MOCK_HEALTH_EVENTS : List JsObj :=
  [ [ ("id", .str "1"),
      ("animalId", .str "1"),
      ("earTag", .str "COL-001"),
      ("eventType", .str "Vacunación"),
      ("date", .str "2025-12-15"),
      ("description", .str "Vacuna antiaftosa"),
      ("veterinarian", .str "Dr. García") ],
    [ ("id", .str "2"),
      ("animalId", .str "2"),
      ("earTag", .str "COL-002"),
      ("eventType", .str "Tratamiento"),
      ("date", .str "2025-12-20"),
      ("description", .str "Desparasitación"),
      ("veterinarian", .str "Dr. Pérez") ] ]

/-- The state right after the module is loaded. -/
def World.initial (ε : Type) : World ε :=
  { store := MOCK_HEALTH_EVENTS, console := [], sent := [] }

/-- A console call. -/
def World.print {ε : Type} (w : World ε) (level : Level) (message : String)
    (payload : Option (Thrown ε)) : World ε :=
  { w with console := w.console ++ [⟨level, message, payload⟩] }

/-- The call `apiClient.get(url)`: the request is recorded and the transport
answers. -/
def apiGet {ε : Type} (env : Env ε) (url : String) (w : World ε) :
    Except ε Response × World ε :=
  (env.apiClient ⟨.GET, url, none⟩, { w with sent := w.sent ++ [⟨.GET, url, none⟩] })

/-- The call `apiClient.post(url, body)`. -/
def apiPost {ε : Type} (env : Env ε) (url : String) (body : JsObj) (w : World ε) :
    Except ε Response × World ε :=
  (env.apiClient ⟨.POST, url, some body⟩,
    { w with sent := w.sent ++ [⟨.POST, url, some body⟩] })

/-! ## `URLSearchParams` -/

/-- The UTF-8 bytes of a code point. -/
def utf8Bytes (c : Nat) : List Nat :=
  if c < 0x80 then [c]
  else if c < 0x800 then [0xC0 + c / 64, 0x80 + c % 64]
  else if c < 0x10000 then [0xE0 + c / 4096, 0x80 + c / 64 % 64, 0x80 + c % 64]
  else [0xF0 + c / 262144, 0x80 + c / 4096 % 64, 0x80 + c / 64 % 64, 0x80 + c % 64]

/-- Bytes the form-urlencoded serializer leaves as they are: ASCII letters and
digits and `*`, `-`, `.`, `_`. -/
def formSafe (b : Nat) : Bool :=
  b == 0x2A || b == 0x2D || b == 0x2E || b == 0x5F ||
    (0x30 ≤ b && b ≤ 0x39) || (0x41 ≤ b && b ≤ 0x5A) || (0x61 ≤ b && b ≤ 0x7A)

/-- An uppercase hexadecimal digit. -/
def hexDigit (n : Nat) : Char :=
  if n < 10 then Char.ofNat (48 + n) else Char.ofNat (55 + n)

/-- One byte in form-urlencoded output: a space becomes `+`, a safe byte
stands for itself, any other byte is percent-encoded. -/
def formEncodeByte (b : Nat) : List Char :=
  if b = 0x20 then ['+']
  else if formSafe b then [Char.ofNat b]
  else ['%', hexDigit (b / 16), hexDigit (b % 16)]

/-- The UTF-8 bytes of a string. -/
def stringBytes (s : String) : List Nat :=
  s.data.flatMap (fun c => utf8Bytes c.toNat)

/-- A name or value in form-urlencoded output. -/
def formEncode (s : String) : List Char :=
  (stringBytes s).flatMap formEncodeByte

/-- A `URLSearchParams` object: its list of name-value pairs. -/
abbrev URLSearchParams := List (String × String)

/-- The method `params.append(name, value)`; the value is converted to a
string first, and `none` stands for the `TypeError` of that conversion. -/
def URLSearchParams.append (params : URLSearchParams) (name : String) (value : JsVal) :
    Option URLSearchParams :=
  match value.toStr with
  | some text => some (params ++ [(name, text)])
  | none => none

/-- The method `params.toString()`: the pairs as `name=value`, form-urlencoded
and joined by `&`. -/
def URLSearchParams.toString (params : URLSearchParams) : String :=
  String.mk (List.intercalate ['&']
    (params.map (fun p => formEncode p.1 ++ '=' :: formEncode p.2)))

/-! ## The service -/

/-- The expression `iso.split('T')[0]`: the part of `iso` before its first
`T`, all of `iso` when it has none. -/
def isoDatePart (iso : String) : String :=
  String.mk (iso.data.takeWhile (fun c => c != 'T'))

/-- The object literal of the mock branch of `createHealthEvent`:
`id: String(length + 1)`, then `...eventData`, then `date`. -/
def newEvent (storeLength : Nat) (eventData : JsObj) (now : String) : JsObj :=
  Obj.set
    (Obj.spread (Obj.set [] "id" (.str (toString (storeLength + 1)))) eventData)
    "date" (.str (isoDatePart now))

/-- Registers a health event (`POST /HealthEvent`). The argument `now` is the
string `new Date().toISOString()` evaluates to during the call. -/
def createHealthEvent {ε : Type} (env : Env ε) (now : String) (eventData : JsObj)
    (w : World ε) : Outcome ε :=
  if env.USE_MOCK_API then
    let w1 := w.print .log "🧪 Using MOCK API - creating health event" none
    let created := newEvent w1.store.length eventData now
    (.ok (.event created), { w1 with store := w1.store ++ [created] })
  else
    match apiPost env "/HealthEvent" eventData w with
    | (.ok response, w1) => (.ok (.data response.data), w1)
    | (.error error, w1) =>
      (.error (.transport error),
        w1.print .error "Error creating health event:" (some (.transport error)))

/-- The `URLSearchParams` built in the real branch of `getEventsByFarm`: the
three conditional `append` calls, in source order; `none` when one of them
throws. -/
def farmParams (filters : JsObj) : Option URLSearchParams :=
  let params : URLSearchParams := []
  match (if (Obj.get filters "fromDate").truthy then
      params.append "fromDate" (Obj.get filters "fromDate") else some params) with
  | none => none
  | some params =>
    match (if (Obj.get filters "toDate").truthy then
        params.append "toDate" (Obj.get filters "toDate") else some params) with
    | none => none
    | some params =>
      if (Obj.get filters "eventType").truthy then
        params.append "eventType" (Obj.get filters "eventType") else some params

/-- The constant `url` of the real branch of `getEventsByFarm`: the query is
attached when `params.toString()` is a truthy (non-empty) string. -/
def farmUrl (filters : JsObj) : Option String :=
  match farmParams filters with
  | none => none
  | some params =>
    if (JsVal.str params.toString).truthy then some ("/HealthEvent/farm?" ++ params.toString)
    else some "/HealthEvent/farm"

/-- Events of the farm (`GET /HealthEvent/farm`, query `fromDate`, `toDate`,
`eventType`). In the mock branch a `TypeError` leaves the function; in the
real branch it is raised inside `try`, logged and thrown again. -/
def getEventsByFarm {ε : Type} (env : Env ε) (filters : FilterArg) (w : World ε) :
    Outcome ε :=
  if env.USE_MOCK_API then
    let w1 := w.print .log "🧪 Using MOCK API for farm health events" none
    let events := w1.store
    match filters.props? with
    | none => (.error .typeError, w1)
    | some filters =>
      let events :=
        if (Obj.get filters "eventType").truthy then
          events.filter
            (fun e => (Obj.get e "eventType").strictEq (Obj.get filters "eventType"))
        else events
      (.ok (.events events), w1)
  else
    match filters.props?.bind farmUrl with
    | none =>
      (.error .typeError,
        w.print .error "Error fetching health events for farm:" (some .typeError))
    | some url =>
      match apiGet env url w with
      | (.ok response, w1) => (.ok (.data response.data), w1)
      | (.error error, w1) =>
        (.error (.transport error),
          w1.print .error "Error fetching health events for farm:" (some (.transport error)))

/-- Events of an animal (`GET /HealthEvent/animal/{animalId}`). When the
identifier cannot be converted to a string the template literal throws inside
`try`, and the one of the `catch` block throws again before anything is
logged. -/
def getEventsByAnimal {ε : Type} (env : Env ε) (animalId : JsVal) (w : World ε) :
    Outcome ε :=
  match animalId.toStr with
  | none => (.error .typeError, w)
  | some text =>
    match apiGet env ("/HealthEvent/animal/" ++ text) w with
    | (.ok response, w1) => (.ok (.data response.data), w1)
    | (.error error, w1) =>
      (.error (.transport error),
        w1.print .error ("Error fetching health events for animal " ++ text ++ ":")
          (some (.transport error)))

/-- Events of a batch (`GET /HealthEvent/batch/{batchId}`). -/
def getEventsByBatch {ε : Type} (env : Env ε) (batchId : JsVal) (w : World ε) :
    Outcome ε :=
  match batchId.toStr with
  | none => (.error .typeError, w)
  | some text =>
    match apiGet env ("/HealthEvent/batch/" ++ text) w with
    | (.ok response, w1) => (.ok (.data response.data), w1)
    | (.error error, w1) =>
      (.error (.transport error),
        w1.print .error ("Error fetching health events for batch " ++ text ++ ":")
          (some (.transport error)))

/-- Events of a type (`GET /HealthEvent/type/{type}`). -/
def getEventsByType {ε : Type} (env : Env ε) (type : JsVal) (w : World ε) :
    Outcome ε :=
  match type.toStr with
  | none => (.error .typeError, w)
  | some text =>
    match apiGet env ("/HealthEvent/type/" ++ text) w with
    | (.ok response, w1) => (.ok (.data response.data), w1)
    | (.error error, w1) =>
      (.error (.transport error),
        w1.print .error ("Error fetching health events of type " ++ text ++ ":")
          (some (.transport error)))

/-- The statistics the mock branch of `getDashboardStats` returns. -/
def mockDashboardStats : List (String × JsObj) :=
  [ ("healthy", [("value", .num "115"), ("total", .num "120"), ("trend", .str "+5")]),
    ("treatment", [("value", .num "3"), ("trend", .str "-1")]),
    ("vaccinesPending", [("value", .num "5"), ("trend", .str "")]),
    ("critical", [("value", .num "2"), ("trend", .str "")]) ]

/-- The fallback structure of the `catch` block of `getDashboardStats`. -/
def fallbackDashboardStats : List (String × JsObj) :=
  [ ("healthy", [("value", .num "0"), ("total", .num "0"), ("trend", .str "")]),
    ("treatment", [("value", .num "0"), ("trend", .str "")]),
    ("vaccinesPending", [("value", .num "0"), ("trend", .str "")]),
    ("critical", [("value", .num "0"), ("trend", .str "")]) ]

/-- Dashboard statistics (`GET /HealthEvent/dashboard-stats`). -/
def getDashboardStats {ε : Type} (env : Env ε) (w : World ε) : Outcome ε :=
  if env.USE_MOCK_API then
    (.ok (.stats mockDashboardStats),
      w.print .log "🧪 Using MOCK API for dashboard stats" none)
  else
    match apiGet env "/HealthEvent/dashboard-stats" w with
    | (.ok response, w1) => (.ok (.data response.data), w1)
    | (.error error, w1) =>
      (.ok (.stats fallbackDashboardStats),
        w1.print .warn "Error getting dashboard stats:" (some (.transport error)))

/-- Upcoming events (`GET /HealthEvent/upcoming`). -/
def getUpcomingEvents {ε : Type} (env : Env ε) (w : World ε) : Outcome ε :=
  if env.USE_MOCK_API then
    let w1 := w.print .log "🧪 Using MOCK API for upcoming events" none
    (.ok (.events (w1.store.take 3)), w1)
  else
    match apiGet env "/HealthEvent/upcoming" w with
    | (.ok response, w1) => (.ok (.data response.data), w1)
    | (.error error, w1) =>
      (.ok (.events []),
        w1.print .error "Error getting upcoming events:" (some (.transport error)))

/-- Recent treatments (`GET /HealthEvent/recent-treatments`). -/
def getRecentTreatments {ε : Type} (env : Env ε) (w : World ε) : Outcome ε :=
  if env.USE_MOCK_API then
    let w1 := w.print .log "🧪 Using MOCK API for recent treatments" none
    (.ok (.events (w1.store.filter
        (fun e => (Obj.get e "eventType").strictEq (.str "Tratamiento")))), w1)
  else
    match apiGet env "/HealthEvent/recent-treatments" w with
    | (.ok response, w1) => (.ok (.data response.data), w1)
    | (.error error, w1) =>
      (.ok (.events []),
        w1.print .error "Error getting recent treatments:" (some (.transport error)))

/-- Helper: events of type `"Vaccination"`. The parameter is never read. -/
def getVaccinations {ε : Type} (env : Env ε) (_filters : Option JsVal) (w : World ε) :
    Outcome ε :=
  getEventsByType env (.str "Vaccination") w

/-- Compatibility alias dispatching on `animalId`, `batchId`, `type`. The
argument is a filter record, or is left out (`none`) and takes the default
`{}`. -/
def getHealthRecords {ε : Type} (env : Env ε) (filter : Option JsObj) (w : World ε) :
    Outcome ε :=
  let filter := filter.getD []
  if (Obj.get filter "animalId").truthy then
    getEventsByAnimal env (Obj.get filter "animalId") w
  else if (Obj.get filter "batchId").truthy then
    getEventsByBatch env (Obj.get filter "batchId") w
  else if (Obj.get filter "type").truthy then
    getEventsByType env (Obj.get filter "type") w
  else
    getEventsByFarm env (.record filter) w

/-! ## Reading a query string back -/

/-- The value of a hexadecimal digit. -/
def hexValue? (c : Char) : Option Nat :=
  if 48 ≤ c.toNat ∧ c.toNat ≤ 57 then some (c.toNat - 48)
  else if 65 ≤ c.toNat ∧ c.toNat ≤ 70 then some (c.toNat - 55)
  else if 97 ≤ c.toNat ∧ c.toNat ≤ 102 then some (c.toNat - 87)
  else none

/-- Form-urlencoded decoding into bytes, as the receiver of a query string
performs it: `+` is a space, `%` followed by two hexadecimal digits is the
byte they denote, any other character stands for its UTF-8 bytes. The first
`skip` characters are passed over. -/
def formDecodeFrom : Nat → List Char → List Nat
  | _, [] => []
  | skip + 1, _ :: tail => formDecodeFrom skip tail
  | 0, c :: tail =>
    if c = '+' then 0x20 :: formDecodeFrom 0 tail
    else if c = '%' then
      match tail with
      | h :: l :: _ =>
        match hexValue? h, hexValue? l with
        | some a, some b => (16 * a + b) :: formDecodeFrom 2 tail
        | _, _ => 0x25 :: formDecodeFrom 0 tail
      | _ => 0x25 :: formDecodeFrom 0 tail
    else utf8Bytes c.toNat ++ formDecodeFrom 0 tail

/-- Decoding of a form-urlencoded name or value. -/
def formDecode (cs : List Char) : List Nat :=
  formDecodeFrom 0 cs

/-- Reading a query string back: the non-empty segments between `&`, each
split at its first `=` into a name and a value, both decoded to bytes. -/
def parseQuery (query : List Char) : List (List Nat × List Nat) :=
  ((query.splitOn '&').filter (fun seg => !seg.isEmpty)).map
    (fun seg => (formDecode (seg.takeWhile (fun c => c != '=')),
      formDecode ((seg.dropWhile (fun c => c != '=')).drop 1)))

/-! ## Auxiliary definitions used in the statements -/

/-- The number a string of decimal digits denotes, as `Number(s)` reads it. -/
def decimalValue (s : String) : Nat :=
  s.data.foldl (fun acc c => 10 * acc + (c.toNat - 48)) 0

/-- An outcome propagates the transport's answer: it rejects with the error
`e` of the transport exactly when the transport rejected with `e`, and it
resolves to the data of the response when the transport resolved. -/
def Propagates {ε : Type} (answer : Except ε Response)
    (result : Except (Thrown ε) Returned) : Prop :=
  (∀ e, answer = .error e ↔ result = .error (.transport e)) ∧
  (∀ r, answer = .ok r → result = .ok (.data r.data))

/-- The filters a query is expected to carry: those among `fromDate`,
`toDate`, `eventType`, in that order, whose value is truthy, each with its
value. -/
def truthyFilters (filters : JsObj) : List (String × JsVal) :=
  (["fromDate", "toDate", "eventType"].filter
    (fun name => (Obj.get filters name).truthy)).map
    (fun name => (name, Obj.get filters name))

/-- The values of a list of named values converted to strings; `none` when
the conversion of one of them throws. -/
def stringsOf : List (String × JsVal) → Option (List (String × String))
  | [] => some []
  | (name, value) :: rest =>
    match value.toStr, stringsOf rest with
    | some text, some others => some ((name, text) :: others)
    | _, _ => none

/-- A module loaded in mock mode; its transport is unreachable. -/
def mockEnv : Env String :=
  { USE_MOCK_API := true, apiClient := fun _ => .error "Network Error" }

/-- A module loaded in real mode whose transport rejects every request. -/
def failingEnv : Env String :=
  { USE_MOCK_API := false, apiClient := fun _ => .error "Network Error" }

/-- A module loaded in real mode whose transport answers every request with
the requested URL as data. -/
def echoEnv : Env String :=
  { USE_MOCK_API := false, apiClient := fun r => .ok ⟨.str r.url⟩ }

/-- A timestamp as `new Date().toISOString()` returns it. -/
def sampleNow : String := "2026-01-05T08:30:00.000Z"

/-- Event data carrying its own `id` and `date`. -/
def eventWithId : JsObj :=
  [("id", .str "99"), ("animalId", .str "7"), ("date", .str "1999-01-01")]

/-- Event data without `id` and `date`. -/
def eventPlain : JsObj :=
  [("animalId", .str "7"), ("eventType", .str "Tratamiento")]

/-- The filter `{animalId: "1", batchId: "2"}`. -/
def filterAnimalBatch : JsObj :=
  [("animalId", .str "1"), ("batchId", .str "2")]

/-- The filter `{animalId: "", batchId: "2"}`: `animalId` is present and
empty. -/
def filterEmptyAnimal : JsObj :=
  [("animalId", .str ""), ("batchId", .str "2")]

/-- The filter `{animalId: 0, batchId: "2"}`: `animalId` is present and
zero. -/
def filterZeroAnimal : JsObj :=
  [("animalId", .num "0"), ("batchId", .str "2")]

/-- The filter `{eventType: 0}`: `eventType` is present and zero. -/
def filterZeroType : JsObj :=
  [("eventType", .num "0")]

/-- The filter `{eventType: "Vacunación"}`. -/
def filterVacunacion : JsObj :=
  [("eventType", .str "Vacunación")]

/-- The filter `{eventType: ""}`: `eventType` is present and empty. -/
def filterEmptyType : JsObj :=
  [("eventType", .str "")]

/-- The filter `{fromDate: "2025-01-01", eventType: "Vacunación"}`. -/
def filterFromType : JsObj :=
  [("fromDate", .str "2025-01-01"), ("eventType", .str "Vacunación")]

/-- The record `{toString: 1}`, whose string conversion throws. -/
def shadowedRecord : JsVal :=
  .obj 1 [("toString", .num "1")]

/-- The filter `{fromDate: {toString: 1}}`. -/
def filterShadowed : JsObj :=
  [("fromDate", shadowedRecord)]

/-- The filter `{fromDate: 1e21}`. -/
def filterLargeDate : JsObj :=
  [("fromDate", .num "1e+21")]

/-- One array `["x"]`, held by the caller. -/
def sharedTag : JsVal :=
  .arr 7 [.str "x"]

/-- Another array `["x"]`, with the same content as `sharedTag`. -/
def otherTag : JsVal :=
  .arr 8 [.str "x"]

/-! ## Evaluations on concrete inputs -/

theorem toStr_array_sample :
    JsVal.toStr (.arr 1 [.num "1", .null, .str "a"]) = some "1,,a" := by
  decide

theorem toStr_shadowed_sample :
    shadowedRecord.toStr = none ∧ JsVal.toStr (.arr 2 [.num "1", shadowedRecord]) = none ∧
    JsVal.toStr (.obj 2 [("valueOf", .num "1")]) = some "[object Object]" := by
  decide

theorem toString_sample :
    URLSearchParams.toString [("a b", "x&y=z"), ("c", "")] = "a+b=x%26y%3Dz&c=" := by
  decide

theorem parseQuery_sample :
    parseQuery "a+b=x%26y%3Dz&c=".data
      = [([97, 32, 98], [120, 38, 121, 61, 122]), ([99], [])] := by
  decide

theorem isoDatePart_sample : isoDatePart sampleNow = "2026-01-05" := by
  decide

theorem farmUrl_large_sample :
    farmUrl filterLargeDate = some "/HealthEvent/farm?fromDate=1e%2B21" := by
  decide

/-! ## Records -/

theorem Obj.lookup_cons_ite (k k' : String) (v : JsVal) (es : JsObj) :
    List.lookup k' ((k, v) :: es) = if k' = k then some v else List.lookup k' es := by
  by_cases h : k' = k
  · simp [List.lookup, h]
  · have hb : (k' == k) = false := by simpa using h
    simp [List.lookup, h, hb]

theorem Obj.get_set (o : JsObj) (k k' : String) (v : JsVal) :
    Obj.get (Obj.set o k v) k' = if k' = k then v else Obj.get o k' := by
  induction o with
  | nil =>
    unfold Obj.get Obj.set
    rw [Obj.lookup_cons_ite]
    split_ifs <;> simp
  | cons p rest ih =>
    obtain ⟨k0, v0⟩ := p
    unfold Obj.get at ih ⊢
    unfold Obj.set
    by_cases h0 : k0 = k
    · subst h0
      simp only [if_true, Obj.lookup_cons_ite]
      split_ifs <;> simp
    · simp only [h0, if_false, Obj.lookup_cons_ite]
      by_cases h2 : k' = k0
      · have h : ¬ k' = k := fun e => h0 (h2.symm.trans e)
        simp [h2, h0]
      · simp only [h2, if_false, ih]

theorem Obj.has_set (o : JsObj) (k k' : String) (v : JsVal) :
    Obj.has (Obj.set o k v) k' = (decide (k' = k) || Obj.has o k') := by
  induction o with
  | nil =>
    unfold Obj.has Obj.set
    rw [Obj.lookup_cons_ite]
    split_ifs with h <;> simp [h]
  | cons p rest ih =>
    obtain ⟨k0, v0⟩ := p
    unfold Obj.has at ih ⊢
    unfold Obj.set
    by_cases h0 : k0 = k
    · subst h0
      simp only [if_true, Obj.lookup_cons_ite]
      split_ifs with h <;> simp [h]
    · simp only [h0, if_false, Obj.lookup_cons_ite]
      by_cases h2 : k' = k0
      · simp [h2]
      · simp only [h2, if_false, ih]

theorem Obj.mem_ownKeys (o : JsObj) (k : String) :
    k ∈ Obj.ownKeys o ↔ Obj.has o k = true := by
  unfold Obj.ownKeys Obj.has
  rw [List.mem_dedup]
  induction o with
  | nil => simp [List.lookup]
  | cons p rest ih =>
    obtain ⟨k0, v0⟩ := p
    rw [Obj.lookup_cons_ite]
    by_cases h : k = k0
    · simp [h]
    · simp only [List.map_cons, List.mem_cons, h, false_or, if_false]
      exact ih

theorem Obj.get_foldl_set (src : JsObj) (ks : List String) (target : JsObj) (k : String) :
    Obj.get (ks.foldl (fun acc x => Obj.set acc x (Obj.get src x)) target) k
      = if k ∈ ks then Obj.get src k else Obj.get target k := by
  induction ks generalizing target with
  | nil => simp
  | cons x xs ih =>
    rw [List.foldl_cons, ih, Obj.get_set]
    by_cases h1 : k ∈ xs
    · simp [h1]
    · by_cases h2 : k = x
      · simp [h2]
      · simp [h1, h2]

theorem Obj.has_foldl_set (src : JsObj) (ks : List String) (target : JsObj) (k : String) :
    Obj.has (ks.foldl (fun acc x => Obj.set acc x (Obj.get src x)) target) k
      = (decide (k ∈ ks) || Obj.has target k) := by
  induction ks generalizing target with
  | nil => simp
  | cons x xs ih =>
    rw [List.foldl_cons, ih, Obj.has_set]
    by_cases h1 : k ∈ xs
    · simp [h1]
    · by_cases h2 : k = x
      · simp [h2]
      · simp [h1, h2]

theorem Obj.get_spread (target src : JsObj) (k : String) :
    Obj.get (Obj.spread target src) k
      = if Obj.has src k = true then Obj.get src k else Obj.get target k := by
  unfold Obj.spread
  rw [Obj.get_foldl_set]
  simp only [Obj.mem_ownKeys]

theorem Obj.has_spread (target src : JsObj) (k : String) :
    Obj.has (Obj.spread target src) k = (Obj.has src k || Obj.has target k) := by
  unfold Obj.spread
  rw [Obj.has_foldl_set]
  by_cases h : Obj.has src k = true
  · simp [Obj.mem_ownKeys, h]
  · simp [Obj.mem_ownKeys, h]

/-! ## Dates and decimal identifiers -/

theorem isoDatePart_timestamp (d t : String) (h : 'T' ∉ d.data) :
    isoDatePart (d ++ "T" ++ t) = d := by
  have key : ∀ (l r : List Char), 'T' ∉ l →
      (l ++ 'T' :: r).takeWhile (fun c => c != 'T') = l := by
    intro l r hl
    induction l with
    | nil => simp [List.takeWhile]
    | cons c cs ih =>
      have hc : c ≠ 'T' := fun e => hl (by simp [e])
      have hcs : 'T' ∉ cs := fun e => hl (by simp [e])
      simp [List.takeWhile_cons, hc, ih hcs]
  unfold isoDatePart
  have hd : (d ++ "T" ++ t).data = d.data ++ 'T' :: t.data := by
    simp [String.data_append]
  rw [hd, key _ _ h]

theorem digitChar_value (m : Nat) (h : m < 10) : (Nat.digitChar m).toNat - 48 = m := by
  interval_cases m <;> decide

theorem foldl_toDigitsCore (fuel n : Nat) (ds : List Char) (h : n < fuel) :
    (Nat.toDigitsCore 10 fuel n ds).foldl (fun acc c => 10 * acc + (c.toNat - 48)) 0
      = ds.foldl (fun acc c => 10 * acc + (c.toNat - 48)) n := by
  induction fuel generalizing n ds with
  | zero => omega
  | succ fuel ih =>
    unfold Nat.toDigitsCore
    by_cases h0 : n / 10 = 0
    · simp only [h0, if_true, List.foldl_cons]
      rw [digitChar_value _ (Nat.mod_lt _ (by decide))]
      congr 1
      omega
    · simp only [h0, if_false]
      rw [ih (n / 10) _ (by omega), List.foldl_cons,
        digitChar_value _ (Nat.mod_lt _ (by decide))]
      congr 1
      omega

theorem decimalValue_toString (n : Nat) : decimalValue (toString n) = n := by
  show decimalValue (Nat.repr n) = n
  unfold decimalValue Nat.repr Nat.toDigits List.asString
  rw [foldl_toDigitsCore _ _ _ (Nat.lt_succ_self n)]
  rfl

/-! ## createHealthEvent -/

theorem get_newEvent (n : Nat) (eventData : JsObj) (now k : String) :
    Obj.get (newEvent n eventData now) k =
      if k = "date" then .str (isoDatePart now)
      else if Obj.has eventData k = true then Obj.get eventData k
      else if k = "id" then .str (toString (n + 1))
      else .undefined := by
  unfold newEvent
  rw [Obj.get_set, Obj.get_spread, Obj.get_set]
  rfl

theorem has_newEvent (n : Nat) (eventData : JsObj) (now k : String) :
    Obj.has (newEvent n eventData now) k = true ↔
      (k = "id" ∨ k = "date" ∨ Obj.has eventData k = true) := by
  unfold newEvent
  rw [Obj.has_set, Obj.has_spread, Obj.has_set]
  simp [Obj.has, List.lookup]
  tauto

theorem createHealthEvent_mock {ε : Type} (env : Env ε) (now : String) (eventData : JsObj)
    (w : World ε) (hmock : env.USE_MOCK_API = true) :
    createHealthEvent env now eventData w =
      (.ok (.event (newEvent w.store.length eventData now)),
        { store := w.store ++ [newEvent w.store.length eventData now],
          console := w.console ++ [⟨.log, "🧪 Using MOCK API - creating health event", none⟩],
          sent := w.sent }) := by
  simp [createHealthEvent, hmock, World.print]

/-- C1 (as amended): in mock mode `createHealthEvent` returns a record in which
every field of `eventData` other than `date` has its supplied value (a
supplied `id` included), whose `date` is the date part of the current
timestamp, whose `id` is the decimal string of the store length plus one when
`eventData` has no `id` of its own, and which has no other field. -/
theorem createHealthEvent_mock_fields {ε : Type} (env : Env ε) (now : String)
    (eventData : JsObj) (w : World ε) (hmock : env.USE_MOCK_API = true) :
    ∃ created : JsObj,
      (createHealthEvent env now eventData w).1 = .ok (.event created) ∧
      (∀ k, Obj.has eventData k = true → k ≠ "date" →
        Obj.get created k = Obj.get eventData k) ∧
      Obj.get created "date" = .str (isoDatePart now) ∧
      (∀ d t : String, now = d ++ "T" ++ t → 'T' ∉ d.data →
        Obj.get created "date" = .str d) ∧
      (Obj.has eventData "id" = false →
        Obj.get created "id" = .str (toString (w.store.length + 1))) ∧
      (∀ k, Obj.has created k = true ↔
        (k = "id" ∨ k = "date" ∨ Obj.has eventData k = true)) := by
  refine ⟨newEvent w.store.length eventData now, ?_, ?_, ?_, ?_, ?_, ?_⟩
  · rw [createHealthEvent_mock env now eventData w hmock]
  · intro k hk hd
    rw [get_newEvent]
    simp [hk, hd]
  · rw [get_newEvent]
    simp
  · intro d t hnow hT
    rw [get_newEvent, hnow, isoDatePart_timestamp d t hT]
    simp
  · intro hid
    rw [get_newEvent]
    simp [hid]
  · intro k
    exact has_newEvent _ _ _ _

theorem createHealthEvent_mock_fields_witness :
    mockEnv.USE_MOCK_API = true ∧
    ∃ created : JsObj,
      (createHealthEvent mockEnv sampleNow eventPlain (World.initial String)).1
        = .ok (.event created) ∧
      (∀ k, Obj.has eventPlain k = true → k ≠ "date" →
        Obj.get created k = Obj.get eventPlain k) ∧
      Obj.get created "date" = .str (isoDatePart sampleNow) ∧
      (∀ d t : String, sampleNow = d ++ "T" ++ t → 'T' ∉ d.data →
        Obj.get created "date" = .str d) ∧
      (Obj.has eventPlain "id" = false →
        Obj.get created "id"
          = .str (toString ((World.initial String).store.length + 1))) ∧
      (∀ k, Obj.has created k = true ↔
        (k = "id" ∨ k = "date" ∨ Obj.has eventPlain k = true)) :=
  ⟨rfl, createHealthEvent_mock_fields mockEnv sampleNow eventPlain (World.initial String) rfl⟩

/-- C1 (as stated) fails: on the seed store, event data carrying `id: "99"`
comes back with `id` equal to `"99"`, so no returned record has the generated
identifier `"3"`. -/
theorem createHealthEvent_mock_supplied_id_wins :
    ¬ ∃ created : JsObj,
      (createHealthEvent mockEnv sampleNow eventWithId (World.initial String)).1
        = .ok (.event created) ∧
      Obj.get created "id" = .str (toString ((World.initial String).store.length + 1)) := by
  rintro ⟨created, hres, hid⟩
  rw [createHealthEvent_mock mockEnv sampleNow eventWithId _ rfl] at hres
  have hc : newEvent (World.initial String).store.length eventWithId sampleNow = created := by
    injection hres with h
    injection h
  rw [← hc, get_newEvent] at hid
  have h1 : Obj.has eventWithId "id" = true := by decide
  have h2 : Obj.get eventWithId "id" = .str "99" := rfl
  have h3 : toString ((World.initial String).store.length + 1) = "3" := by decide
  rw [if_neg (by decide), if_pos h1, h2, h3] at hid
  injection hid with h
  exact absurd h (by decide)

/-- C2 (as amended): in mock mode, two sequential `createHealthEvent` calls
whose inputs carry no `id` of their own return events whose `id` values are
the decimal strings of the store length plus one and plus two: distinct, and
increasing as numbers. -/
theorem createHealthEvent_twice_ids {ε : Type} (env : Env ε) (now1 now2 : String)
    (data1 data2 : JsObj) (w : World ε) (hmock : env.USE_MOCK_API = true)
    (h1 : Obj.has data1 "id" = false) (h2 : Obj.has data2 "id" = false) :
    ∃ (e1 e2 : JsObj) (id1 id2 : String),
      (createHealthEvent env now1 data1 w).1 = .ok (.event e1) ∧
      (createHealthEvent env now2 data2 (createHealthEvent env now1 data1 w).2).1
        = .ok (.event e2) ∧
      Obj.get e1 "id" = .str id1 ∧ Obj.get e2 "id" = .str id2 ∧
      id1 = toString (w.store.length + 1) ∧
      id2 = toString (w.store.length + 2) ∧
      decimalValue id1 = w.store.length + 1 ∧
      decimalValue id2 = w.store.length + 2 ∧
      id1 ≠ id2 ∧ decimalValue id1 < decimalValue id2 := by
  refine ⟨newEvent w.store.length data1 now1,
    newEvent (w.store.length + 1) data2 now2,
    toString (w.store.length + 1), toString (w.store.length + 1 + 1),
    ?_, ?_, ?_, ?_, rfl, rfl, ?_, ?_, ?_, ?_⟩
  · rw [createHealthEvent_mock env now1 data1 w hmock]
  · rw [createHealthEvent_mock env now1 data1 w hmock, createHealthEvent_mock env now2 data2 _ hmock]
    simp
  · rw [get_newEvent]
    simp [h1]
  · rw [get_newEvent]
    simp [h2]
  · rw [decimalValue_toString]
  · rw [decimalValue_toString]
  · intro h
    have := congrArg decimalValue h
    rw [decimalValue_toString, decimalValue_toString] at this
    omega
  · rw [decimalValue_toString, decimalValue_toString]
    omega

theorem createHealthEvent_twice_ids_witness :
    mockEnv.USE_MOCK_API = true ∧ Obj.has eventPlain "id" = false ∧
    Obj.has ([] : JsObj) "id" = false ∧
    ∃ (e1 e2 : JsObj) (id1 id2 : String),
      (createHealthEvent mockEnv sampleNow eventPlain (World.initial String)).1
        = .ok (.event e1) ∧
      (createHealthEvent mockEnv sampleNow []
          (createHealthEvent mockEnv sampleNow eventPlain (World.initial String)).2).1
        = .ok (.event e2) ∧
      Obj.get e1 "id" = .str id1 ∧ Obj.get e2 "id" = .str id2 ∧
      id1 = toString ((World.initial String).store.length + 1) ∧
      id2 = toString ((World.initial String).store.length + 2) ∧
      decimalValue id1 = (World.initial String).store.length + 1 ∧
      decimalValue id2 = (World.initial String).store.length + 2 ∧
      id1 ≠ id2 ∧ decimalValue id1 < decimalValue id2 :=
  ⟨rfl, by decide, by decide,
    createHealthEvent_twice_ids mockEnv sampleNow sampleNow eventPlain []
      (World.initial String) rfl (by decide) (by decide)⟩

/-- C2 (as stated) fails: on the seed store, two sequential calls with event
data carrying `id: "99"` both return an event whose `id` is `"99"`; the two
identifiers are not distinct. -/
theorem createHealthEvent_twice_same_id :
    ¬ ∃ e1 e2 : JsObj,
      (createHealthEvent mockEnv sampleNow eventWithId (World.initial String)).1
        = .ok (.event e1) ∧
      (createHealthEvent mockEnv sampleNow eventWithId
          (createHealthEvent mockEnv sampleNow eventWithId (World.initial String)).2).1
        = .ok (.event e2) ∧
      Obj.get e1 "id" ≠ Obj.get e2 "id" := by
  rintro ⟨e1, e2, hr1, hr2, hne⟩
  rw [createHealthEvent_mock mockEnv sampleNow eventWithId _ rfl] at hr1 hr2
  rw [createHealthEvent_mock mockEnv sampleNow eventWithId _ rfl] at hr2
  have hc1 : newEvent (World.initial String).store.length eventWithId sampleNow = e1 := by
    injection hr1 with h
    injection h
  have hc2 : newEvent ((World.initial String).store ++
      [newEvent (World.initial String).store.length eventWithId sampleNow]).length
      eventWithId sampleNow = e2 := by
    injection hr2 with h
    injection h
  apply hne
  rw [← hc1, ← hc2, get_newEvent, get_newEvent]
  have hh : Obj.has eventWithId "id" = true := by decide
  rw [if_neg (by decide), if_pos hh, if_neg (by decide), if_pos hh]

/-! ## Operations that call the transport -/

theorem getEventsByAnimal_outcome {ε : Type} (env : Env ε) (animalId : JsVal) (text : String)
    (w : World ε) (h : animalId.toStr = some text) :
    Propagates (env.apiClient ⟨.GET, "/HealthEvent/animal/" ++ text, none⟩)
      (getEventsByAnimal env animalId w).1 ∧
    (getEventsByAnimal env animalId w).2.sent
      = w.sent ++ [⟨.GET, "/HealthEvent/animal/" ++ text, none⟩] ∧
    (getEventsByAnimal env animalId w).2.store = w.store := by
  unfold getEventsByAnimal apiGet Propagates
  simp only [h]
  cases h' : env.apiClient ⟨.GET, "/HealthEvent/animal/" ++ text, none⟩ <;>
    simp [World.print, h']

theorem getEventsByAnimal_typeError {ε : Type} (env : Env ε) (animalId : JsVal)
    (w : World ε) (h : animalId.toStr = none) :
    getEventsByAnimal env animalId w = (.error .typeError, w) := by
  unfold getEventsByAnimal
  rw [h]

theorem getEventsByBatch_outcome {ε : Type} (env : Env ε) (batchId : JsVal) (text : String)
    (w : World ε) (h : batchId.toStr = some text) :
    Propagates (env.apiClient ⟨.GET, "/HealthEvent/batch/" ++ text, none⟩)
      (getEventsByBatch env batchId w).1 ∧
    (getEventsByBatch env batchId w).2.sent
      = w.sent ++ [⟨.GET, "/HealthEvent/batch/" ++ text, none⟩] ∧
    (getEventsByBatch env batchId w).2.store = w.store := by
  unfold getEventsByBatch apiGet Propagates
  simp only [h]
  cases h' : env.apiClient ⟨.GET, "/HealthEvent/batch/" ++ text, none⟩ <;>
    simp [World.print, h']

theorem getEventsByBatch_typeError {ε : Type} (env : Env ε) (batchId : JsVal)
    (w : World ε) (h : batchId.toStr = none) :
    getEventsByBatch env batchId w = (.error .typeError, w) := by
  unfold getEventsByBatch
  rw [h]

theorem getEventsByType_outcome {ε : Type} (env : Env ε) (type : JsVal) (text : String)
    (w : World ε) (h : type.toStr = some text) :
    Propagates (env.apiClient ⟨.GET, "/HealthEvent/type/" ++ text, none⟩)
      (getEventsByType env type w).1 ∧
    (getEventsByType env type w).2.sent
      = w.sent ++ [⟨.GET, "/HealthEvent/type/" ++ text, none⟩] ∧
    (getEventsByType env type w).2.store = w.store := by
  unfold getEventsByType apiGet Propagates
  simp only [h]
  cases h' : env.apiClient ⟨.GET, "/HealthEvent/type/" ++ text, none⟩ <;>
    simp [World.print, h']

theorem getEventsByType_typeError {ε : Type} (env : Env ε) (type : JsVal)
    (w : World ε) (h : type.toStr = none) :
    getEventsByType env type w = (.error .typeError, w) := by
  unfold getEventsByType
  rw [h]

theorem createHealthEvent_real_outcome {ε : Type} (env : Env ε) (now : String)
    (eventData : JsObj) (w : World ε) (hreal : env.USE_MOCK_API = false) :
    Propagates (env.apiClient ⟨.POST, "/HealthEvent", some eventData⟩)
      (createHealthEvent env now eventData w).1 ∧
    (createHealthEvent env now eventData w).2.sent
      = w.sent ++ [⟨.POST, "/HealthEvent", some eventData⟩] ∧
    (createHealthEvent env now eventData w).2.store = w.store := by
  unfold createHealthEvent apiPost Propagates
  cases h : env.apiClient ⟨.POST, "/HealthEvent", some eventData⟩ <;>
    simp [World.print, hreal]

theorem getEventsByFarm_real_outcome {ε : Type} (env : Env ε) (filters : FilterArg)
    (url : String) (w : World ε) (hreal : env.USE_MOCK_API = false)
    (hurl : filters.props?.bind farmUrl = some url) :
    Propagates (env.apiClient ⟨.GET, url, none⟩) (getEventsByFarm env filters w).1 ∧
    (getEventsByFarm env filters w).2.sent = w.sent ++ [⟨.GET, url, none⟩] ∧
    (getEventsByFarm env filters w).2.store = w.store := by
  unfold getEventsByFarm apiGet Propagates
  cases h : env.apiClient ⟨.GET, url, none⟩ <;>
    simp [World.print, hreal, h, hurl]

theorem getEventsByFarm_real_typeError {ε : Type} (env : Env ε) (filters : FilterArg)
    (w : World ε) (hreal : env.USE_MOCK_API = false)
    (hurl : filters.props?.bind farmUrl = none) :
    getEventsByFarm env filters w =
      (.error .typeError,
        w.print .error "Error fetching health events for farm:" (some .typeError)) := by
  unfold getEventsByFarm
  simp [hreal, hurl]

theorem getEventsByFarm_mock_eq {ε : Type} (env : Env ε) (filters : FilterArg)
    (f : JsObj) (w : World ε) (hmock : env.USE_MOCK_API = true)
    (hf : filters.props? = some f) :
    getEventsByFarm env filters w =
      (.ok (.events (if (Obj.get f "eventType").truthy = true then
          w.store.filter (fun e =>
            (Obj.get e "eventType").strictEq (Obj.get f "eventType"))
          else w.store)),
        w.print .log "🧪 Using MOCK API for farm health events" none) := by
  simp [getEventsByFarm, hmock, World.print, hf]

theorem getEventsByFarm_mock_null {ε : Type} (env : Env ε) (w : World ε)
    (hmock : env.USE_MOCK_API = true) :
    getEventsByFarm env .null w =
      (.error .typeError, w.print .log "🧪 Using MOCK API for farm health events" none) := by
  simp [getEventsByFarm, hmock, World.print, FilterArg.props?]

theorem createHealthEvent_mock_resolves {ε : Type} (env : Env ε) (now : String)
    (eventData : JsObj) (w : World ε) (hmock : env.USE_MOCK_API = true) :
    ∃ v, (createHealthEvent env now eventData w).1 = .ok v ∧
      (createHealthEvent env now eventData w).2.sent = w.sent := by
  simp [createHealthEvent, hmock, World.print]

/-! ## Operations that degrade -/

/-- C5: in real mode `getDashboardStats` never rejects; when the transport
rejects it resolves to the zeroed structure, and when the transport resolves
it resolves to the data of the response. -/
theorem getDashboardStats_real {ε : Type} (env : Env ε) (w : World ε)
    (hreal : env.USE_MOCK_API = false) :
    (∀ e, (getDashboardStats env w).1 ≠ .error e) ∧
    (∀ e, env.apiClient ⟨.GET, "/HealthEvent/dashboard-stats", none⟩ = .error e →
      (getDashboardStats env w).1 = .ok (.stats
        [ ("healthy", [("value", .num "0"), ("total", .num "0"), ("trend", .str "")]),
          ("treatment", [("value", .num "0"), ("trend", .str "")]),
          ("vaccinesPending", [("value", .num "0"), ("trend", .str "")]),
          ("critical", [("value", .num "0"), ("trend", .str "")]) ])) ∧
    (∀ r, env.apiClient ⟨.GET, "/HealthEvent/dashboard-stats", none⟩ = .ok r →
      (getDashboardStats env w).1 = .ok (.data r.data)) ∧
    (getDashboardStats env w).2.sent
      = w.sent ++ [⟨.GET, "/HealthEvent/dashboard-stats", none⟩] := by
  unfold getDashboardStats apiGet
  cases h : env.apiClient ⟨.GET, "/HealthEvent/dashboard-stats", none⟩ <;>
    simp [World.print, hreal, fallbackDashboardStats]

theorem getDashboardStats_real_witness :
    failingEnv.USE_MOCK_API = false ∧
    (∀ e, (getDashboardStats failingEnv (World.initial String)).1 ≠ .error e) ∧
    (∀ e, failingEnv.apiClient ⟨.GET, "/HealthEvent/dashboard-stats", none⟩ = .error e →
      (getDashboardStats failingEnv (World.initial String)).1 = .ok (.stats
        [ ("healthy", [("value", .num "0"), ("total", .num "0"), ("trend", .str "")]),
          ("treatment", [("value", .num "0"), ("trend", .str "")]),
          ("vaccinesPending", [("value", .num "0"), ("trend", .str "")]),
          ("critical", [("value", .num "0"), ("trend", .str "")]) ])) ∧
    (∀ r, failingEnv.apiClient ⟨.GET, "/HealthEvent/dashboard-stats", none⟩ = .ok r →
      (getDashboardStats failingEnv (World.initial String)).1 = .ok (.data r.data)) ∧
    (getDashboardStats failingEnv (World.initial String)).2.sent
      = (World.initial String).sent ++ [⟨.GET, "/HealthEvent/dashboard-stats", none⟩] :=
  ⟨rfl, getDashboardStats_real failingEnv (World.initial String) rfl⟩

/-- C6: `getUpcomingEvents` and `getRecentTreatments` resolve in either mode
and for every transport; in real mode, when the transport rejects, each
resolves to the empty array. -/
theorem upcoming_recent_never_fail {ε : Type} (env : Env ε) (w : World ε) :
    (∃ v, (getUpcomingEvents env w).1 = .ok v) ∧
    (∃ v, (getRecentTreatments env w).1 = .ok v) ∧
    (env.USE_MOCK_API = false →
      ∀ e, env.apiClient ⟨.GET, "/HealthEvent/upcoming", none⟩ = .error e →
        (getUpcomingEvents env w).1 = .ok (.events [])) ∧
    (env.USE_MOCK_API = false →
      ∀ e, env.apiClient ⟨.GET, "/HealthEvent/recent-treatments", none⟩ = .error e →
        (getRecentTreatments env w).1 = .ok (.events [])) := by
  unfold getUpcomingEvents getRecentTreatments apiGet
  cases hm : env.USE_MOCK_API
  · cases h1 : env.apiClient ⟨.GET, "/HealthEvent/upcoming", none⟩ <;>
      cases h2 : env.apiClient ⟨.GET, "/HealthEvent/recent-treatments", none⟩ <;>
      simp [World.print]
  · simp

theorem upcoming_recent_never_fail_witness :
    (∃ v, (getUpcomingEvents failingEnv (World.initial String)).1 = .ok v) ∧
    (∃ v, (getRecentTreatments failingEnv (World.initial String)).1 = .ok v) ∧
    (getUpcomingEvents failingEnv (World.initial String)).1 = .ok (.events []) ∧
    (getRecentTreatments failingEnv (World.initial String)).1 = .ok (.events []) :=
  have h := upcoming_recent_never_fail failingEnv (World.initial String)
  ⟨h.1, h.2.1, h.2.2.1 rfl "Network Error" rfl, h.2.2.2 rfl "Network Error" rfl⟩

/-! ## getVaccinations and getHealthRecords -/

/-- C9: whatever its argument, `getVaccinations` has the outcome and the
effects of `getEventsByType("Vaccination")`: one `GET` of
`/HealthEvent/type/Vaccination`, whose answer it propagates. -/
theorem getVaccinations_delegates {ε : Type} (env : Env ε) (filters : Option JsVal)
    (w : World ε) :
    getVaccinations env filters w = getEventsByType env (.str "Vaccination") w ∧
    (getVaccinations env filters w).2.sent
      = w.sent ++ [⟨.GET, "/HealthEvent/type/Vaccination", none⟩] ∧
    Propagates (env.apiClient ⟨.GET, "/HealthEvent/type/Vaccination", none⟩)
      (getVaccinations env filters w).1 ∧
    (∀ other : Option JsVal, getVaccinations env other w = getVaccinations env filters w) := by
  have h := getEventsByType_outcome env (.str "Vaccination") "Vaccination" w rfl
  have hurl : "/HealthEvent/type/" ++ "Vaccination" = "/HealthEvent/type/Vaccination" := by
    decide
  rw [hurl] at h
  exact ⟨rfl, h.2.1, h.1, fun _ => rfl⟩

/-- C3 (as amended): `getHealthRecords` dispatches on the first truthy field
among `animalId`, `batchId`, `type` and otherwise calls `getEventsByFarm` with
the whole filter; `{animalId: "1", batchId: "2"}` takes the animal-keyed path
and issues no other request. -/
theorem getHealthRecords_dispatch {ε : Type} (env : Env ε) (filter : Option JsObj)
    (w : World ε) :
    ((Obj.get (filter.getD []) "animalId").truthy = true →
      getHealthRecords env filter w
        = getEventsByAnimal env (Obj.get (filter.getD []) "animalId") w) ∧
    ((Obj.get (filter.getD []) "animalId").truthy = false →
      (Obj.get (filter.getD []) "batchId").truthy = true →
      getHealthRecords env filter w
        = getEventsByBatch env (Obj.get (filter.getD []) "batchId") w) ∧
    ((Obj.get (filter.getD []) "animalId").truthy = false →
      (Obj.get (filter.getD []) "batchId").truthy = false →
      (Obj.get (filter.getD []) "type").truthy = true →
      getHealthRecords env filter w
        = getEventsByType env (Obj.get (filter.getD []) "type") w) ∧
    ((Obj.get (filter.getD []) "animalId").truthy = false →
      (Obj.get (filter.getD []) "batchId").truthy = false →
      (Obj.get (filter.getD []) "type").truthy = false →
      getHealthRecords env filter w = getEventsByFarm env (.record (filter.getD [])) w) ∧
    getHealthRecords env (some filterAnimalBatch) w = getEventsByAnimal env (.str "1") w ∧
    (getHealthRecords env (some filterAnimalBatch) w).2.sent
      = w.sent ++ [⟨.GET, "/HealthEvent/animal/1", none⟩] := by
  have hex : getHealthRecords env (some filterAnimalBatch) w
      = getEventsByAnimal env (.str "1") w := rfl
  refine ⟨?_, ?_, ?_, ?_, hex, ?_⟩
  · intro h1
    simp [getHealthRecords, h1]
  · intro h1 h2
    simp [getHealthRecords, h1, h2]
  · intro h1 h2 h3
    simp [getHealthRecords, h1, h2, h3]
  · intro h1 h2 h3
    simp [getHealthRecords, h1, h2, h3]
  · rw [hex, (getEventsByAnimal_outcome env (.str "1") "1" w rfl).2.1]
    rfl

theorem getHealthRecords_dispatch_witness :
    (Obj.get ((some filterAnimalBatch).getD []) "animalId").truthy = true ∧
    getHealthRecords echoEnv (some filterAnimalBatch) (World.initial String)
      = getEventsByAnimal echoEnv (Obj.get ((some filterAnimalBatch).getD []) "animalId")
          (World.initial String) :=
  ⟨by decide,
    (getHealthRecords_dispatch echoEnv (some filterAnimalBatch) (World.initial String)).1
      (by decide)⟩

/-- C3 (as stated) fails: the filter `{animalId: "", batchId: "2"}` has an
`animalId`, yet `getHealthRecords` requests `/HealthEvent/batch/2`, which is
not what `getEventsByAnimal("")` does; the same happens for
`{animalId: 0, batchId: "2"}`. -/
theorem getHealthRecords_empty_animalId :
    Obj.has filterEmptyAnimal "animalId" = true ∧
    (getHealthRecords echoEnv (some filterEmptyAnimal) (World.initial String)).2.sent
      = [⟨.GET, "/HealthEvent/batch/2", none⟩] ∧
    (getEventsByAnimal echoEnv (Obj.get filterEmptyAnimal "animalId")
        (World.initial String)).2.sent
      = [⟨.GET, "/HealthEvent/animal/", none⟩] ∧
    getHealthRecords echoEnv (some filterEmptyAnimal) (World.initial String)
      ≠ getEventsByAnimal echoEnv (Obj.get filterEmptyAnimal "animalId")
          (World.initial String) ∧
    Obj.has filterZeroAnimal "animalId" = true ∧
    (getHealthRecords echoEnv (some filterZeroAnimal) (World.initial String)).2.sent
      = [⟨.GET, "/HealthEvent/batch/2", none⟩] := by
  refine ⟨by decide, rfl, rfl, ?_, by decide, rfl⟩
  intro h
  have h1 : (getHealthRecords echoEnv (some filterEmptyAnimal) (World.initial String)).1
      = .ok (.data (.str "/HealthEvent/batch/2")) := rfl
  have h2 : (getEventsByAnimal echoEnv (Obj.get filterEmptyAnimal "animalId")
      (World.initial String)).1 = .ok (.data (.str "/HealthEvent/animal/")) := rfl
  rw [h, h2] at h1
  injection h1 with h1
  injection h1 with h1
  injection h1 with h1
  exact absurd h1 (by decide)

/-! ## getEventsByFarm in mock mode -/

theorem strictEq_str_iff (v : JsVal) (t : String) :
    v.strictEq (.str t) = true ↔ v = .str t := by
  cases v <;> simp [JsVal.strictEq]

theorem strictEq_arr_iff (v : JsVal) (r : Nat) (items : List JsVal) :
    v.strictEq (.arr r items) = true ↔ ∃ items', v = .arr r items' := by
  cases v <;> simp [JsVal.strictEq]

theorem strictEq_obj_iff (v : JsVal) (r : Nat) (props : JsObj) :
    v.strictEq (.obj r props) = true ↔ ∃ props', v = .obj r props' := by
  cases v <;> simp [JsVal.strictEq]

/-- C7 (as amended): in mock mode `getEventsByFarm` returns the records of the
store, in store order, whose `eventType` is strictly equal to
`filters.eventType` (for an array or a record: is that very object) when that
value is truthy, and all records when it is absent or falsy (the empty string
included); the result depends on the filters through `eventType` only. On the
seed data `{eventType: "Vacunación"}` gives exactly one record, the one with
`id` `"1"`. -/
theorem getEventsByFarm_mock_filter {ε : Type} (env : Env ε) (filters : FilterArg)
    (f : JsObj) (w : World ε) (hmock : env.USE_MOCK_API = true)
    (hf : filters.props? = some f) :
    ((Obj.get f "eventType").truthy = true →
      (getEventsByFarm env filters w).1 = .ok (.events (w.store.filter (fun e =>
        (Obj.get e "eventType").strictEq (Obj.get f "eventType"))))) ∧
    ((Obj.get f "eventType").truthy = false →
      (getEventsByFarm env filters w).1 = .ok (.events w.store)) ∧
    (∀ t : String, Obj.get f "eventType" = .str t → t ≠ "" →
      ∃ events : List JsObj,
        (getEventsByFarm env filters w).1 = .ok (.events events) ∧
        events.Sublist w.store ∧
        ∀ e, e ∈ events ↔ (e ∈ w.store ∧ Obj.get e "eventType" = .str t)) ∧
    (∀ (r : Nat) (items : List JsVal), Obj.get f "eventType" = .arr r items →
      ∃ events : List JsObj,
        (getEventsByFarm env filters w).1 = .ok (.events events) ∧
        events.Sublist w.store ∧
        ∀ e, e ∈ events ↔ (e ∈ w.store ∧ ∃ items', Obj.get e "eventType" = .arr r items')) ∧
    (∀ (r : Nat) (props : JsObj), Obj.get f "eventType" = .obj r props →
      ∃ events : List JsObj,
        (getEventsByFarm env filters w).1 = .ok (.events events) ∧
        events.Sublist w.store ∧
        ∀ e, e ∈ events ↔ (e ∈ w.store ∧ ∃ props', Obj.get e "eventType" = .obj r props')) ∧
    (∀ (other : FilterArg) (g : JsObj), other.props? = some g →
      Obj.get g "eventType" = Obj.get f "eventType" →
      (getEventsByFarm env other w).1 = (getEventsByFarm env filters w).1) ∧
    (∃ e : JsObj,
      (getEventsByFarm env (.record filterVacunacion)
        { w with store := MOCK_HEALTH_EVENTS }).1 = .ok (.events [e]) ∧
      Obj.get e "id" = .str "1") := by
  refine ⟨?_, ?_, ?_, ?_, ?_, ?_, ?_⟩
  · intro h
    rw [getEventsByFarm_mock_eq env filters f w hmock hf]
    simp [h]
  · intro h
    rw [getEventsByFarm_mock_eq env filters f w hmock hf]
    simp [h]
  · intro t ht hne
    refine ⟨w.store.filter (fun e => (Obj.get e "eventType").strictEq (.str t)), ?_, ?_, ?_⟩
    · rw [getEventsByFarm_mock_eq env filters f w hmock hf, ht]
      simp [JsVal.truthy, hne]
    · exact List.filter_sublist _
    · intro e
      rw [List.mem_filter, strictEq_str_iff]
  · intro r items ht
    refine ⟨w.store.filter (fun e => (Obj.get e "eventType").strictEq (.arr r items)),
      ?_, ?_, ?_⟩
    · rw [getEventsByFarm_mock_eq env filters f w hmock hf, ht]
      simp [JsVal.truthy]
    · exact List.filter_sublist _
    · intro e
      rw [List.mem_filter, strictEq_arr_iff]
  · intro r props ht
    refine ⟨w.store.filter (fun e => (Obj.get e "eventType").strictEq (.obj r props)),
      ?_, ?_, ?_⟩
    · rw [getEventsByFarm_mock_eq env filters f w hmock hf, ht]
      simp [JsVal.truthy]
    · exact List.filter_sublist _
    · intro e
      rw [List.mem_filter, strictEq_obj_iff]
  · intro other g hg h
    rw [getEventsByFarm_mock_eq env filters f w hmock hf,
      getEventsByFarm_mock_eq env other g w hmock hg, h]
  · refine ⟨MOCK_HEALTH_EVENTS.head!, ?_, rfl⟩
    rw [getEventsByFarm_mock_eq env (.record filterVacunacion) filterVacunacion _ hmock rfl]
    rfl

theorem getEventsByFarm_mock_filter_witness :
    mockEnv.USE_MOCK_API = true ∧
    (FilterArg.record filterVacunacion).props? = some filterVacunacion ∧
    (Obj.get filterVacunacion "eventType").truthy = true ∧
    (getEventsByFarm mockEnv (.record filterVacunacion) (World.initial String)).1
      = .ok (.events ((World.initial String).store.filter (fun e =>
          (Obj.get e "eventType").strictEq (Obj.get filterVacunacion "eventType")))) :=
  ⟨rfl, rfl, by decide,
    (getEventsByFarm_mock_filter mockEnv (.record filterVacunacion) filterVacunacion
      (World.initial String) rfl rfl).1 (by decide)⟩

/-- After `createHealthEvent({eventType: t})` for an array `t`, the filter
`{eventType: t}` with that very array finds the new record, and a filter with
another array of the same content finds nothing. -/
theorem getEventsByFarm_same_array_sample :
    (getEventsByFarm mockEnv (.record [("eventType", sharedTag)])
      (createHealthEvent mockEnv sampleNow [("eventType", sharedTag)]
        (World.initial String)).2).1
      = .ok (.events [newEvent 2 [("eventType", sharedTag)] sampleNow]) ∧
    (getEventsByFarm mockEnv (.record [("eventType", otherTag)])
      (createHealthEvent mockEnv sampleNow [("eventType", sharedTag)]
        (World.initial String)).2).1
      = .ok (.events []) :=
  ⟨rfl, rfl⟩

/-- C7 (as stated) fails: on the seed data the filter `{eventType: ""}` gives
an `eventType`, no record has the event type `""`, and `getEventsByFarm`
returns both records; the same happens for `{eventType: 0}`. -/
theorem getEventsByFarm_mock_empty_eventType :
    Obj.has filterEmptyType "eventType" = true ∧
    (getEventsByFarm mockEnv (.record filterEmptyType) (World.initial String)).1
      = .ok (.events MOCK_HEALTH_EVENTS) ∧
    (getEventsByFarm mockEnv (.record filterEmptyType) (World.initial String)).1
      ≠ .ok (.events ((World.initial String).store.filter (fun e =>
          (Obj.get e "eventType").strictEq (Obj.get filterEmptyType "eventType")))) ∧
    Obj.has filterZeroType "eventType" = true ∧
    (getEventsByFarm mockEnv (.record filterZeroType) (World.initial String)).1
      = .ok (.events MOCK_HEALTH_EVENTS) ∧
    (World.initial String).store.filter (fun e =>
      (Obj.get e "eventType").strictEq (Obj.get filterZeroType "eventType")) = [] := by
  have h1 : (getEventsByFarm mockEnv (.record filterEmptyType) (World.initial String)).1
      = .ok (.events MOCK_HEALTH_EVENTS) := rfl
  have h2 : (World.initial String).store.filter (fun e =>
      (Obj.get e "eventType").strictEq (Obj.get filterEmptyType "eventType")) = [] := rfl
  refine ⟨by decide, h1, ?_, by decide, rfl, rfl⟩
  rw [h1, h2]
  intro h
  injection h with h
  injection h with h
  cases h

/-! ## The mock store -/

theorem getEventsByFarm_store {ε : Type} (env : Env ε) (filters : FilterArg)
    (w : World ε) : (getEventsByFarm env filters w).2.store = w.store := by
  cases hm : env.USE_MOCK_API
  · cases hu : filters.props?.bind farmUrl with
    | none =>
      rw [getEventsByFarm_real_typeError env filters w hm hu]
      rfl
    | some url => exact (getEventsByFarm_real_outcome env filters url w hm hu).2.2
  · cases hf : filters.props? with
    | none =>
      cases filters with
      | omitted => cases hf
      | null =>
        rw [getEventsByFarm_mock_null env w hm]
        rfl
      | record props => cases hf
    | some f =>
      rw [getEventsByFarm_mock_eq env filters f w hm hf]
      rfl

theorem getEventsByAnimal_store {ε : Type} (env : Env ε) (animalId : JsVal) (w : World ε) :
    (getEventsByAnimal env animalId w).2.store = w.store := by
  cases h : animalId.toStr with
  | none => rw [getEventsByAnimal_typeError env animalId w h]
  | some text => exact (getEventsByAnimal_outcome env animalId text w h).2.2

theorem getEventsByBatch_store {ε : Type} (env : Env ε) (batchId : JsVal) (w : World ε) :
    (getEventsByBatch env batchId w).2.store = w.store := by
  cases h : batchId.toStr with
  | none => rw [getEventsByBatch_typeError env batchId w h]
  | some text => exact (getEventsByBatch_outcome env batchId text w h).2.2

theorem getEventsByType_store {ε : Type} (env : Env ε) (type : JsVal) (w : World ε) :
    (getEventsByType env type w).2.store = w.store := by
  cases h : type.toStr with
  | none => rw [getEventsByType_typeError env type w h]
  | some text => exact (getEventsByType_outcome env type text w h).2.2

theorem getDashboardStats_store {ε : Type} (env : Env ε) (w : World ε) :
    (getDashboardStats env w).2.store = w.store := by
  unfold getDashboardStats apiGet
  cases hm : env.USE_MOCK_API
  · cases h : env.apiClient ⟨.GET, "/HealthEvent/dashboard-stats", none⟩ <;>
      simp [World.print]
  · simp [World.print]

theorem getUpcomingEvents_store {ε : Type} (env : Env ε) (w : World ε) :
    (getUpcomingEvents env w).2.store = w.store := by
  unfold getUpcomingEvents apiGet
  cases hm : env.USE_MOCK_API
  · cases h : env.apiClient ⟨.GET, "/HealthEvent/upcoming", none⟩ <;>
      simp [World.print]
  · simp [World.print]

theorem getRecentTreatments_store {ε : Type} (env : Env ε) (w : World ε) :
    (getRecentTreatments env w).2.store = w.store := by
  unfold getRecentTreatments apiGet
  cases hm : env.USE_MOCK_API
  · cases h : env.apiClient ⟨.GET, "/HealthEvent/recent-treatments", none⟩ <;>
      simp [World.print]
  · simp [World.print]

theorem getHealthRecords_store {ε : Type} (env : Env ε) (filter : Option JsObj)
    (w : World ε) : (getHealthRecords env filter w).2.store = w.store := by
  unfold getHealthRecords
  simp only []
  split_ifs
  · exact getEventsByAnimal_store env _ w
  · exact getEventsByBatch_store env _ w
  · exact getEventsByType_store env _ w
  · exact getEventsByFarm_store env _ w

theorem getEventsByFarm_mock_reads_store {ε : Type} (env : Env ε) (filters : FilterArg)
    (w w' : World ε) (hmock : env.USE_MOCK_API = true) (hw : w'.store = w.store) :
    (getEventsByFarm env filters w').1 = (getEventsByFarm env filters w).1 := by
  cases hf : filters.props? with
  | none =>
    cases filters with
    | omitted => cases hf
    | null => rw [getEventsByFarm_mock_null env w hmock, getEventsByFarm_mock_null env w' hmock]
    | record props => cases hf
  | some f =>
    rw [getEventsByFarm_mock_eq env filters f w hmock hf,
      getEventsByFarm_mock_eq env filters f w' hmock hf, hw]

/-- C10: in mock mode `createHealthEvent` appends the returned event to the
store and leaves the records already there unchanged and in place; no other
operation, and no operation in real mode, changes the store; in mock mode the
result of a read is determined by the store. -/
theorem store_changes_only_by_append {ε : Type} (env : Env ε) (now : String)
    (eventData : JsObj) (filters : FilterArg) (filter : Option JsObj)
    (unused : Option JsVal) (animalId batchId type : JsVal) (w : World ε) :
    (env.USE_MOCK_API = true →
      ∃ created : JsObj,
        (createHealthEvent env now eventData w).1 = .ok (.event created) ∧
        (createHealthEvent env now eventData w).2.store = w.store ++ [created] ∧
        (createHealthEvent env now eventData w).2.store.length = w.store.length + 1 ∧
        ∀ i, i < w.store.length →
          (createHealthEvent env now eventData w).2.store[i]? = w.store[i]?) ∧
    (env.USE_MOCK_API = false →
      (createHealthEvent env now eventData w).2.store = w.store) ∧
    (getEventsByFarm env filters w).2.store = w.store ∧
    (getEventsByAnimal env animalId w).2.store = w.store ∧
    (getEventsByBatch env batchId w).2.store = w.store ∧
    (getEventsByType env type w).2.store = w.store ∧
    (getDashboardStats env w).2.store = w.store ∧
    (getUpcomingEvents env w).2.store = w.store ∧
    (getRecentTreatments env w).2.store = w.store ∧
    (getVaccinations env unused w).2.store = w.store ∧
    (getHealthRecords env filter w).2.store = w.store ∧
    (env.USE_MOCK_API = true → ∀ w' : World ε, w'.store = w.store →
      (getEventsByFarm env filters w').1 = (getEventsByFarm env filters w).1 ∧
      (getDashboardStats env w').1 = (getDashboardStats env w).1 ∧
      (getUpcomingEvents env w').1 = (getUpcomingEvents env w).1 ∧
      (getRecentTreatments env w').1 = (getRecentTreatments env w).1) := by
  refine ⟨?_, ?_, getEventsByFarm_store env filters w,
    getEventsByAnimal_store env animalId w,
    getEventsByBatch_store env batchId w,
    getEventsByType_store env type w,
    getDashboardStats_store env w, getUpcomingEvents_store env w,
    getRecentTreatments_store env w,
    getEventsByType_store env (.str "Vaccination") w,
    getHealthRecords_store env filter w, ?_⟩
  · intro hmock
    refine ⟨newEvent w.store.length eventData now, ?_, ?_, ?_, ?_⟩
    · rw [createHealthEvent_mock env now eventData w hmock]
    · rw [createHealthEvent_mock env now eventData w hmock]
    · rw [createHealthEvent_mock env now eventData w hmock]
      simp
    · intro i hi
      rw [createHealthEvent_mock env now eventData w hmock]
      exact List.getElem?_append_left hi
  · intro hreal
    exact (createHealthEvent_real_outcome env now eventData w hreal).2.2
  · intro hmock w' hw
    refine ⟨getEventsByFarm_mock_reads_store env filters w w' hmock hw, ?_, ?_, ?_⟩
    · simp [getDashboardStats, hmock]
    · simp [getUpcomingEvents, hmock, World.print, hw]
    · simp [getRecentTreatments, hmock, World.print, hw]

theorem store_changes_only_by_append_witness :
    mockEnv.USE_MOCK_API = true ∧
    ∃ created : JsObj,
      (createHealthEvent mockEnv sampleNow eventPlain (World.initial String)).1
        = .ok (.event created) ∧
      (createHealthEvent mockEnv sampleNow eventPlain (World.initial String)).2.store
        = (World.initial String).store ++ [created] ∧
      (createHealthEvent mockEnv sampleNow eventPlain (World.initial String)).2.store.length
        = (World.initial String).store.length + 1 ∧
      ∀ i, i < (World.initial String).store.length →
        (createHealthEvent mockEnv sampleNow eventPlain (World.initial String)).2.store[i]?
          = (World.initial String).store[i]? :=
  ⟨rfl, (store_changes_only_by_append mockEnv sampleNow eventPlain .omitted none none
    .undefined .undefined .undefined (World.initial String)).1 rfl⟩

/-! ## The query string of getEventsByFarm -/

set_option maxRecDepth 100000 in
theorem formSafe_char : ∀ b < 128, formSafe b = true →
    Char.ofNat b ≠ '+' ∧ Char.ofNat b ≠ '%' ∧ Char.ofNat b ≠ '&' ∧ Char.ofNat b ≠ '='
      ∧ (Char.ofNat b).toNat = b := by
  decide

theorem formSafe_lt (b : Nat) (h : formSafe b = true) : b < 128 := by
  unfold formSafe at h
  simp at h
  omega

theorem hexDigit_spec : ∀ n < 16,
    hexValue? (hexDigit n) = some n ∧ hexDigit n ≠ '&' ∧ hexDigit n ≠ '=' := by
  decide

theorem char_toNat_lt (c : Char) : c.toNat < 0x110000 := by
  have h := c.valid
  unfold UInt32.isValidChar Nat.isValidChar at h
  show c.val.toNat < 0x110000
  omega

theorem utf8Bytes_lt (c : Nat) (h : c < 0x110000) : ∀ b ∈ utf8Bytes c, b < 256 := by
  unfold utf8Bytes
  intro b hb
  split_ifs at hb <;> simp at hb <;> omega

theorem stringBytes_lt (s : String) : ∀ b ∈ stringBytes s, b < 256 := by
  intro b hb
  unfold stringBytes at hb
  rw [List.mem_flatMap] at hb
  obtain ⟨c, _, hc⟩ := hb
  exact utf8Bytes_lt c.toNat (char_toNat_lt c) b hc

theorem formDecodeFrom_encodeByte (b : Nat) (hb : b < 256) (t : List Char) :
    formDecodeFrom 0 (formEncodeByte b ++ t) = b :: formDecodeFrom 0 t := by
  unfold formEncodeByte
  by_cases h20 : b = 0x20
  · simp [h20, formDecodeFrom]
  · by_cases hs : formSafe b = true
    · obtain ⟨h1, h2, _, _, h5⟩ := formSafe_char b (formSafe_lt b hs) hs
      have hlt := formSafe_lt b hs
      simp [h20, hs, formDecodeFrom, h1, h2, h5, utf8Bytes, hlt]
    · have hh := (hexDigit_spec (b / 16) (by omega)).1
      have hl := (hexDigit_spec (b % 16) (by omega)).1
      simp [h20, hs, formDecodeFrom, hh, hl]
      omega

theorem formDecode_flatMap (bs : List Nat) (hbs : ∀ b ∈ bs, b < 256) :
    formDecode (bs.flatMap formEncodeByte) = bs := by
  unfold formDecode
  induction bs with
  | nil => simp [formDecodeFrom]
  | cons b bs ih =>
    rw [List.flatMap_cons, formDecodeFrom_encodeByte b (hbs b (by simp)),
      ih (fun x hx => hbs x (by simp [hx]))]

theorem formDecode_formEncode (s : String) : formDecode (formEncode s) = stringBytes s :=
  formDecode_flatMap _ (stringBytes_lt s)

theorem formEncodeByte_chars (b : Nat) (hb : b < 256) :
    ∀ c ∈ formEncodeByte b, c ≠ '&' ∧ c ≠ '=' := by
  unfold formEncodeByte
  intro c hc
  by_cases h20 : b = 0x20
  · simp [h20] at hc
    subst hc
    decide
  · by_cases hs : formSafe b = true
    · obtain ⟨_, _, h3, h4, _⟩ := formSafe_char b (formSafe_lt b hs) hs
      simp [h20, hs] at hc
      subst hc
      exact ⟨h3, h4⟩
    · have hh := (hexDigit_spec (b / 16) (by omega)).2
      have hl := (hexDigit_spec (b % 16) (by omega)).2
      simp [h20, hs] at hc
      rcases hc with hc | hc | hc
      · subst hc
        decide
      · subst hc
        exact hh
      · subst hc
        exact hl

theorem formEncode_chars (s : String) : ∀ c ∈ formEncode s, c ≠ '&' ∧ c ≠ '=' := by
  intro c hc
  unfold formEncode at hc
  rw [List.mem_flatMap] at hc
  obtain ⟨b, hb, hc⟩ := hc
  exact formEncodeByte_chars b (stringBytes_lt s b hb) c hc

theorem takeWhile_before (x : Char) (l r : List Char) (h : x ∉ l) :
    (l ++ x :: r).takeWhile (fun c => c != x) = l := by
  induction l with
  | nil => simp [List.takeWhile]
  | cons c cs ih =>
    have hc : c ≠ x := fun e => h (by simp [e])
    have hcs : x ∉ cs := fun e => h (by simp [e])
    simp [List.takeWhile_cons, hc, ih hcs]

theorem dropWhile_before (x : Char) (l r : List Char) (h : x ∉ l) :
    (l ++ x :: r).dropWhile (fun c => c != x) = x :: r := by
  induction l with
  | nil => simp [List.dropWhile]
  | cons c cs ih =>
    have hc : c ≠ x := fun e => h (by simp [e])
    have hcs : x ∉ cs := fun e => h (by simp [e])
    simp [List.dropWhile_cons, hc, ih hcs]

theorem parseQuery_toString (params : URLSearchParams) :
    parseQuery params.toString.data
      = params.map (fun p => (stringBytes p.1, stringBytes p.2)) := by
  unfold parseQuery URLSearchParams.toString
  by_cases hp : params = []
  · subst hp
    decide
  · have hne : params.map (fun p => formEncode p.1 ++ '=' :: formEncode p.2) ≠ [] := by
      simpa using hp
    have hamp : ∀ l ∈ params.map (fun p => formEncode p.1 ++ '=' :: formEncode p.2),
        '&' ∉ l := by
      intro l hl hmem
      rw [List.mem_map] at hl
      obtain ⟨p, _, rfl⟩ := hl
      rw [List.mem_append, List.mem_cons] at hmem
      rcases hmem with h | h | h
      · exact (formEncode_chars p.1 _ h).1 rfl
      · exact absurd h (by decide)
      · exact (formEncode_chars p.2 _ h).1 rfl
    rw [List.splitOn_intercalate _ '&' hamp hne, List.filter_map, List.map_map]
    have hall : List.filter ((fun seg : List Char => !seg.isEmpty) ∘
        fun p : String × String => formEncode p.1 ++ '=' :: formEncode p.2) params
        = params := by
      rw [List.filter_eq_self]
      intro p _
      simp
    rw [hall]
    apply List.map_congr_left
    intro p _
    have heq : '=' ∉ formEncode p.1 := fun h => (formEncode_chars p.1 _ h).2 rfl
    simp only [Function.comp]
    rw [takeWhile_before '=' _ _ heq, dropWhile_before '=' _ _ heq]
    simp [formDecode_formEncode]

theorem toString_eq_empty_iff (params : URLSearchParams) :
    params.toString = "" ↔ params = [] := by
  constructor
  · intro h
    have hq := parseQuery_toString params
    rw [h] at hq
    have h0 : parseQuery "".data = [] := by decide
    rw [h0] at hq
    exact List.map_eq_nil_iff.mp hq.symm
  · intro h
    subst h
    decide

theorem stringsOf_spec (named : List (String × JsVal)) (pairs : List (String × String))
    (h : stringsOf named = some pairs) :
    List.Forall₂ (fun p q => q.1 = p.1 ∧ p.2.toStr = some q.2) named pairs := by
  induction named generalizing pairs with
  | nil =>
    simp [stringsOf] at h
    subst h
    exact List.Forall₂.nil
  | cons p rest ih =>
    obtain ⟨name, value⟩ := p
    unfold stringsOf at h
    cases hv : value.toStr with
    | none => simp [hv] at h
    | some text =>
      cases hr : stringsOf rest with
      | none => simp [hv, hr] at h
      | some others =>
        simp [hv, hr] at h
        subst h
        exact List.Forall₂.cons ⟨rfl, hv⟩ (ih others hr)

theorem farmParams_eq (filters : JsObj) :
    farmParams filters = stringsOf (truthyFilters filters) := by
  unfold farmParams truthyFilters URLSearchParams.append
  cases h1 : (Obj.get filters "fromDate").truthy <;>
    cases h2 : (Obj.get filters "toDate").truthy <;>
    cases h3 : (Obj.get filters "eventType").truthy <;>
    simp only [List.filter, h1, h2, h3, List.map, stringsOf, if_true, if_false,
      Bool.false_eq_true, List.nil_append] <;>
    (try cases (Obj.get filters "fromDate").toStr) <;>
    (try cases (Obj.get filters "toDate").toStr) <;>
    (try cases (Obj.get filters "eventType").toStr) <;>
    simp

theorem farmUrl_eq (filters : JsObj) :
    farmUrl filters = (stringsOf (truthyFilters filters)).map (fun pairs =>
      if pairs = [] then "/HealthEvent/farm"
      else "/HealthEvent/farm?" ++ URLSearchParams.toString pairs) := by
  unfold farmUrl
  rw [farmParams_eq]
  cases hs : stringsOf (truthyFilters filters) with
  | none => rfl
  | some pairs =>
    simp only [JsVal.truthy, Option.map_some']
    by_cases h : pairs = []
    · rw [h]
      decide
    · have hne : URLSearchParams.toString pairs ≠ "" :=
        fun e => h ((toString_eq_empty_iff _).mp e)
      simp [h, hne]

/-- C8 (as amended): in real mode, for a filters record (or none),
`getEventsByFarm` converts the truthy values among `fromDate`, `toDate`,
`eventType` to strings. When all conversions succeed it issues one `GET`: of
`/HealthEvent/farm` when none of the three is truthy, otherwise of
`/HealthEvent/farm?` followed by the form-urlencoded query of the truthy ones
in that order, and reading that query back yields exactly their names and
string values (as UTF-8 bytes). When a conversion throws, no request is issued
and the call rejects with the `TypeError`. -/
theorem getEventsByFarm_real_url {ε : Type} (env : Env ε) (filters : FilterArg)
    (f : JsObj) (w : World ε) (hreal : env.USE_MOCK_API = false)
    (hf : filters.props? = some f) :
    (∀ pairs : List (String × String), stringsOf (truthyFilters f) = some pairs →
      List.Forall₂ (fun p q => q.1 = p.1 ∧ p.2.toStr = some q.2) (truthyFilters f) pairs ∧
      (pairs = [] →
        (getEventsByFarm env filters w).2.sent
          = w.sent ++ [⟨.GET, "/HealthEvent/farm", none⟩]) ∧
      (pairs ≠ [] →
        ∃ query : String,
          (getEventsByFarm env filters w).2.sent
            = w.sent ++ [⟨.GET, "/HealthEvent/farm?" ++ query, none⟩] ∧
          query = URLSearchParams.toString pairs ∧
          parseQuery query.data = pairs.map (fun p => (stringBytes p.1, stringBytes p.2)))) ∧
    (stringsOf (truthyFilters f) = none →
      (getEventsByFarm env filters w).1 = .error .typeError ∧
      (getEventsByFarm env filters w).2.sent = w.sent) := by
  refine ⟨?_, ?_⟩
  · intro pairs hp
    refine ⟨stringsOf_spec _ _ hp, ?_, ?_⟩
    · intro h
      have hurl : filters.props?.bind farmUrl = some "/HealthEvent/farm" := by
        rw [hf, Option.some_bind, farmUrl_eq, hp, h]
        rfl
      exact (getEventsByFarm_real_outcome env filters _ w hreal hurl).2.1
    · intro h
      have hurl : filters.props?.bind farmUrl
          = some ("/HealthEvent/farm?" ++ URLSearchParams.toString pairs) := by
        rw [hf, Option.some_bind, farmUrl_eq, hp]
        simp [h]
      exact ⟨_, (getEventsByFarm_real_outcome env filters _ w hreal hurl).2.1, rfl,
        parseQuery_toString _⟩
  · intro hnone
    have hurl : filters.props?.bind farmUrl = none := by
      rw [hf, Option.some_bind, farmUrl_eq, hnone]
      rfl
    rw [getEventsByFarm_real_typeError env filters w hreal hurl]
    exact ⟨rfl, rfl⟩

theorem getEventsByFarm_real_url_witness :
    echoEnv.USE_MOCK_API = false ∧
    (FilterArg.record filterFromType).props? = some filterFromType ∧
    stringsOf (truthyFilters filterFromType)
      = some [("fromDate", "2025-01-01"), ("eventType", "Vacunación")] ∧
    ∃ query : String,
      (getEventsByFarm echoEnv (.record filterFromType) (World.initial String)).2.sent
        = (World.initial String).sent ++ [⟨.GET, "/HealthEvent/farm?" ++ query, none⟩] ∧
      query = URLSearchParams.toString [("fromDate", "2025-01-01"), ("eventType", "Vacunación")] ∧
      parseQuery query.data
        = [("fromDate", "2025-01-01"), ("eventType", "Vacunación")].map
            (fun p => (stringBytes p.1, stringBytes p.2)) :=
  ⟨rfl, rfl, by decide,
    ((getEventsByFarm_real_url echoEnv (.record filterFromType) filterFromType
      (World.initial String) rfl rfl).1 _ (by decide)).2.2 (by decide)⟩

theorem getEventsByFarm_real_url_sample :
    (getEventsByFarm echoEnv (.record filterFromType) (World.initial String)).2.sent
      = [⟨.GET, "/HealthEvent/farm?fromDate=2025-01-01&eventType=Vacunaci%C3%B3n", none⟩] ∧
    (getEventsByFarm echoEnv (.record filterLargeDate) (World.initial String)).2.sent
      = [⟨.GET, "/HealthEvent/farm?fromDate=1e%2B21", none⟩] ∧
    (getEventsByFarm echoEnv (.record filterShadowed) (World.initial String)).1
      = .error .typeError ∧
    (getEventsByFarm echoEnv (.record filterShadowed) (World.initial String)).2.sent = [] := by
  refine ⟨?_, ?_, rfl, rfl⟩
  · rw [(getEventsByFarm_real_outcome echoEnv (.record filterFromType)
      "/HealthEvent/farm?fromDate=2025-01-01&eventType=Vacunaci%C3%B3n" _ rfl (by decide)).2.1]
    rfl
  · rw [(getEventsByFarm_real_outcome echoEnv (.record filterLargeDate)
      "/HealthEvent/farm?fromDate=1e%2B21" _ rfl (by decide)).2.1]
    rfl

/-- C8 (as stated) fails: the filter `{eventType: ""}` supplies an `eventType`,
and the request is `/HealthEvent/farm` with no query string; the same happens
for `{eventType: 0}`. -/
theorem getEventsByFarm_real_empty_eventType :
    Obj.has filterEmptyType "eventType" = true ∧
    (getEventsByFarm echoEnv (.record filterEmptyType) (World.initial String)).2.sent
      = [⟨.GET, "/HealthEvent/farm", none⟩] ∧
    Obj.has filterZeroType "eventType" = true ∧
    (getEventsByFarm echoEnv (.record filterZeroType) (World.initial String)).2.sent
      = [⟨.GET, "/HealthEvent/farm", none⟩] := by
  refine ⟨by decide, ?_, by decide, ?_⟩
  · rw [(getEventsByFarm_real_outcome echoEnv (.record filterEmptyType)
      "/HealthEvent/farm" _ rfl (by decide)).2.1]
    rfl
  · rw [(getEventsByFarm_real_outcome echoEnv (.record filterZeroType)
      "/HealthEvent/farm" _ rfl (by decide)).2.1]
    rfl

/-! ## Propagation of transport errors -/

/-- C4 (as amended): an operation that makes its transport call propagates the
answer: it rejects exactly when the call rejects, with the same error, and
resolves to the data of the response when the call resolves.
`createHealthEvent` and `getEventsByFarm` make the call in real mode only and
resolve in mock mode; `getEventsByAnimal`, `getEventsByBatch` and
`getEventsByType` make it in either mode. No call is made, and the operation
rejects with a `TypeError`, when `getEventsByFarm` is given `null` (either
mode), or when an identifier, a type or (in real mode) a truthy farm filter
cannot be converted to a string. The URL of the farm request is the subject of
C8. -/
theorem propagating_operations {ε : Type} (env : Env ε) (now : String)
    (eventData : JsObj) (filters : FilterArg) (animalId batchId type : JsVal)
    (w : World ε) :
    (env.USE_MOCK_API = false →
      Propagates (env.apiClient ⟨.POST, "/HealthEvent", some eventData⟩)
        (createHealthEvent env now eventData w).1 ∧
      (createHealthEvent env now eventData w).2.sent
        = w.sent ++ [⟨.POST, "/HealthEvent", some eventData⟩]) ∧
    (env.USE_MOCK_API = true →
      ∃ v, (createHealthEvent env now eventData w).1 = .ok v ∧
        (createHealthEvent env now eventData w).2.sent = w.sent) ∧
    (env.USE_MOCK_API = false →
      ∀ (f : JsObj) (pairs : List (String × String)), filters.props? = some f →
        stringsOf (truthyFilters f) = some pairs →
        ∃ url : String, farmUrl f = some url ∧
          Propagates (env.apiClient ⟨.GET, url, none⟩) (getEventsByFarm env filters w).1 ∧
          (getEventsByFarm env filters w).2.sent = w.sent ++ [⟨.GET, url, none⟩]) ∧
    (env.USE_MOCK_API = false →
      ∀ f : JsObj, filters.props? = some f → stringsOf (truthyFilters f) = none →
        (getEventsByFarm env filters w).1 = .error .typeError ∧
        (getEventsByFarm env filters w).2.sent = w.sent) ∧
    (env.USE_MOCK_API = true → filters ≠ .null →
      ∃ v, (getEventsByFarm env filters w).1 = .ok v ∧
        (getEventsByFarm env filters w).2.sent = w.sent) ∧
    (filters = .null →
      (getEventsByFarm env filters w).1 = .error .typeError ∧
      (getEventsByFarm env filters w).2.sent = w.sent) ∧
    (∀ text, animalId.toStr = some text →
      Propagates (env.apiClient ⟨.GET, "/HealthEvent/animal/" ++ text, none⟩)
        (getEventsByAnimal env animalId w).1 ∧
      (getEventsByAnimal env animalId w).2.sent
        = w.sent ++ [⟨.GET, "/HealthEvent/animal/" ++ text, none⟩]) ∧
    (animalId.toStr = none →
      (getEventsByAnimal env animalId w).1 = .error .typeError ∧
      (getEventsByAnimal env animalId w).2.sent = w.sent) ∧
    (∀ text, batchId.toStr = some text →
      Propagates (env.apiClient ⟨.GET, "/HealthEvent/batch/" ++ text, none⟩)
        (getEventsByBatch env batchId w).1 ∧
      (getEventsByBatch env batchId w).2.sent
        = w.sent ++ [⟨.GET, "/HealthEvent/batch/" ++ text, none⟩]) ∧
    (batchId.toStr = none →
      (getEventsByBatch env batchId w).1 = .error .typeError ∧
      (getEventsByBatch env batchId w).2.sent = w.sent) ∧
    (∀ text, type.toStr = some text →
      Propagates (env.apiClient ⟨.GET, "/HealthEvent/type/" ++ text, none⟩)
        (getEventsByType env type w).1 ∧
      (getEventsByType env type w).2.sent
        = w.sent ++ [⟨.GET, "/HealthEvent/type/" ++ text, none⟩]) ∧
    (type.toStr = none →
      (getEventsByType env type w).1 = .error .typeError ∧
      (getEventsByType env type w).2.sent = w.sent) := by
  refine ⟨?_, createHealthEvent_mock_resolves env now eventData w, ?_, ?_, ?_, ?_,
    ?_, ?_, ?_, ?_, ?_, ?_⟩
  · intro hreal
    have h1 := createHealthEvent_real_outcome env now eventData w hreal
    exact ⟨h1.1, h1.2.1⟩
  · intro hreal f pairs hf hp
    have hurl : farmUrl f = some (if pairs = [] then "/HealthEvent/farm"
        else "/HealthEvent/farm?" ++ URLSearchParams.toString pairs) := by
      rw [farmUrl_eq, hp]
      rfl
    have h2 := getEventsByFarm_real_outcome env filters _ w hreal
      (by rw [hf, Option.some_bind, hurl])
    exact ⟨_, hurl, h2.1, h2.2.1⟩
  · intro hreal f hf hnone
    rw [getEventsByFarm_real_typeError env filters w hreal
      (by rw [hf, Option.some_bind, farmUrl_eq, hnone]; rfl)]
    exact ⟨rfl, rfl⟩
  · intro hmock hne
    cases filters with
    | omitted =>
      rw [getEventsByFarm_mock_eq env .omitted [] w hmock rfl]
      exact ⟨_, rfl, rfl⟩
    | null => exact absurd rfl hne
    | record props =>
      rw [getEventsByFarm_mock_eq env (.record props) props w hmock rfl]
      exact ⟨_, rfl, rfl⟩
  · intro hnull
    subst hnull
    cases hm : env.USE_MOCK_API
    · rw [getEventsByFarm_real_typeError env .null w hm rfl]
      exact ⟨rfl, rfl⟩
    · rw [getEventsByFarm_mock_null env w hm]
      exact ⟨rfl, rfl⟩
  · intro text h
    have h3 := getEventsByAnimal_outcome env animalId text w h
    exact ⟨h3.1, h3.2.1⟩
  · intro h
    rw [getEventsByAnimal_typeError env animalId w h]
    exact ⟨rfl, rfl⟩
  · intro text h
    have h4 := getEventsByBatch_outcome env batchId text w h
    exact ⟨h4.1, h4.2.1⟩
  · intro h
    rw [getEventsByBatch_typeError env batchId w h]
    exact ⟨rfl, rfl⟩
  · intro text h
    have h5 := getEventsByType_outcome env type text w h
    exact ⟨h5.1, h5.2.1⟩
  · intro h
    rw [getEventsByType_typeError env type w h]
    exact ⟨rfl, rfl⟩

theorem propagating_operations_witness :
    failingEnv.USE_MOCK_API = false ∧
    (Propagates (failingEnv.apiClient ⟨.POST, "/HealthEvent", some eventPlain⟩)
        (createHealthEvent failingEnv sampleNow eventPlain (World.initial String)).1 ∧
      (createHealthEvent failingEnv sampleNow eventPlain (World.initial String)).2.sent
        = (World.initial String).sent ++ [⟨.POST, "/HealthEvent", some eventPlain⟩]) ∧
    FilterArg.omitted.props? = some [] ∧ stringsOf (truthyFilters []) = some [] ∧
    (∃ url : String, farmUrl [] = some url ∧
      Propagates (failingEnv.apiClient ⟨.GET, url, none⟩)
        (getEventsByFarm failingEnv .omitted (World.initial String)).1 ∧
      (getEventsByFarm failingEnv .omitted (World.initial String)).2.sent
        = (World.initial String).sent ++ [⟨.GET, url, none⟩]) ∧
    (JsVal.str "1").toStr = some "1" ∧
    (Propagates (failingEnv.apiClient ⟨.GET, "/HealthEvent/animal/" ++ "1", none⟩)
        (getEventsByAnimal failingEnv (.str "1") (World.initial String)).1 ∧
      (getEventsByAnimal failingEnv (.str "1") (World.initial String)).2.sent
        = (World.initial String).sent ++ [⟨.GET, "/HealthEvent/animal/" ++ "1", none⟩]) ∧
    (createHealthEvent failingEnv sampleNow eventPlain (World.initial String)).1
      = .error (.transport "Network Error") :=
  have h := propagating_operations failingEnv sampleNow eventPlain .omitted (.str "1")
    (.str "2") (.str "Vaccination") (World.initial String)
  ⟨rfl, h.1 rfl, rfl, by decide, h.2.2.1 rfl [] [] rfl (by decide), rfl,
    h.2.2.2.2.2.2.1 "1" rfl, ((h.1 rfl).1.1 "Network Error").mp rfl⟩

/-- C4 (as stated) fails. With the flag set to mock mode and a transport that
rejects, `getEventsByAnimal("1")` still calls the transport and rejects with
its error: an operation fails outside real mode. With a transport that always
resolves, `getEventsByType({toString: 1})`, `getEventsByFarm(null)` and
`getEventsByFarm({fromDate: {toString: 1}})` reject with a `TypeError` and
issue no request: an operation fails although no transport call fails;
`getEventsByFarm(null)` does so in mock mode too. -/
theorem getEventsByAnimal_fails_in_mock_mode :
    (mockEnv.USE_MOCK_API = true ∧
      (getEventsByAnimal mockEnv (.str "1") (World.initial String)).1
        = .error (.transport "Network Error") ∧
      (getEventsByAnimal mockEnv (.str "1") (World.initial String)).2.sent
        = [⟨.GET, "/HealthEvent/animal/1", none⟩]) ∧
    ((∀ r, ∃ response, echoEnv.apiClient r = .ok response) ∧
      (getEventsByType echoEnv shadowedRecord (World.initial String)).1
        = .error .typeError ∧
      (getEventsByType echoEnv shadowedRecord (World.initial String)).2.sent = [] ∧
      (getEventsByFarm echoEnv .null (World.initial String)).1 = .error .typeError ∧
      (getEventsByFarm echoEnv .null (World.initial String)).2.sent = [] ∧
      (getEventsByFarm echoEnv (.record filterShadowed) (World.initial String)).1
        = .error .typeError ∧
      (getEventsByFarm echoEnv (.record filterShadowed) (World.initial String)).2.sent = [] ∧
      (getEventsByFarm mockEnv .null (World.initial String)).1 = .error .typeError) :=
  ⟨⟨rfl, rfl, rfl⟩, ⟨fun _ => ⟨_, rfl⟩, rfl, rfl, rfl, rfl, rfl, rfl, rfl⟩⟩

end HealthService
